import Mathlib

/-
Verification of the budget-planning agents (compliance, conflict, optimization,
forecaster) of the Hacknation-budzet backend.

The Python sources under backend/app/agents are shallowly embedded here:
- machine floats become exact rationals (all constants in the source are
  decimal literals, and every property checked here is robust under exact
  arithmetic);
- SQLAlchemy rows become Lean structures; nullable columns become Option;
  a query over the session becomes a pure function over a list of rows;
- Python truthiness of nullable columns (None, 0 and the empty string are
  falsy) is modelled explicitly;
- difflib.SequenceMatcher is embedded for isjunk = None and sequences shorter
  than 200 elements, where the junk machinery of the library is inert.
-/

namespace Budget

/-! ## Python string primitives -/

/-- Python str.lower, adequate for the ASCII alphabet; the keyword tables of
the agents are already lower case, so only ASCII case folding is exercised. -/
def pyLower (s : String) : String := ⟨s.data.map Char.toLower⟩

/-- Value of an optional text column, with None read as the empty string
(the `or ""` idiom of the source). -/
def orEmpty (o : Option String) : String := o.getD ""

/-- Python truthiness of a nullable string column: None and "" are falsy. -/
def pyTruthyStr (o : Option String) : Bool := !(o.getD "").isEmpty

/-- Python truthiness of a nullable integer column: None and 0 are falsy. -/
def pyTruthyNat (o : Option Nat) : Bool := o.getD 0 != 0

/-- Does the list start with the given list (needle first)? -/
def listStartsWith : List Char → List Char → Bool
  | [], _ => true
  | _ :: _, [] => false
  | n :: ns, h :: hs => n == h && listStartsWith ns hs

/-- Python substring containment (the `needle in haystack` test). -/
def containsSub (needle : List Char) : List Char → Bool
  | [] => needle.isEmpty
  | c :: rest => listStartsWith needle (c :: rest) || containsSub needle rest

/-- Substring containment on strings. -/
def strContains (needle hay : String) : Bool := containsSub needle.toList hay.toList

/-! ## Data model (models.py) -/

/-- A row of the budget_entries table, restricted to the columns the four
agents read.  Nullable columns are Option; `department_code` carries the code
of the related Department row (`entry.department.code` in the source). -/
structure BudgetEntry where
  id : Nat
  department_id : Option Nat := none
  department_code : Option String := none
  paragraf : Option Nat := none
  beneficjent_zadaniowy : Option String := none
  opis_projektu : Option String := none
  nazwa_zadania : Option String := none
  szczegolowe_uzasadnienie : Option String := none
  kwota_2025 : Option ℚ := none
  kwota_2026 : Option ℚ := none
  kwota_2027 : Option ℚ := none
  kwota_2028 : Option ℚ := none
  kwota_2029 : Option ℚ := none
  priority : Option String := none
  status : String := "draft"
  is_obligatory : Bool := false
  etap_dzialan : Option String := none
  umowy : Option String := none
  uwagi : Option String := none
  zadanie_inwestycyjne : Option String := none

/-- getattr(entry, f"kwota_{year}") for the five modelled years. -/
def kwotaField (e : BudgetEntry) : Nat → Option ℚ
  | 2025 => e.kwota_2025
  | 2026 => e.kwota_2026
  | 2027 => e.kwota_2027
  | 2028 => e.kwota_2028
  | 2029 => e.kwota_2029
  | _ => none

/-- Year amount with None read as 0 (the `or 0` idiom). -/
def amountD (e : BudgetEntry) (year : Nat) : ℚ := (kwotaField e year).getD 0

/-- setattr(entry, f"kwota_{year}", v) for the five modelled years. -/
def setKwota (e : BudgetEntry) (year : Nat) (v : Option ℚ) : BudgetEntry :=
  match year with
  | 2025 => { e with kwota_2025 := v }
  | 2026 => { e with kwota_2026 := v }
  | 2027 => { e with kwota_2027 := v }
  | 2028 => { e with kwota_2028 := v }
  | 2029 => { e with kwota_2029 := v }
  | _ => e

/-- A row of the global_limits table. -/
structure GlobalLimit where
  year : Nat
  total_limit : ℚ

/-! ## Compliance agent (compliance_agent.py) -/

/-- Group tag of a known paragraf code in PARAGRAF_CLASSIFICATIONS;
none for codes absent from the table. -/
def paragrafGroup (p : Nat) : Option String :=
  if p ∈ [6010, 6020, 6050, 6060, 6070] then some "investment"
  else if p ∈ [4010, 4110, 4120, 4170, 4210, 4260, 4270, 4300, 4360, 4390,
               4400, 4410, 4420, 4430, 4440, 4480, 4520, 4610] then some "current"
  else if p ∈ [2570, 2580] then some "subsidy"
  else none

def INVESTMENT_KEYWORDS : List String :=
  ["serwer", "server", "sprzęt komputerowy", "hardware",
   "zakup sprzętu", "infrastruktura", "modernizacja",
   "budowa", "rozbudowa", "urządzenia sieciowe",
   "switch", "router", "firewall", "macierz"]

def CURRENT_KEYWORDS : List String :=
  ["licencja", "license", "oprogramowanie", "software",
   "subskrypcja", "subscription", "szkolenie", "training",
   "usługa", "serwis", "support", "utrzymanie"]

/-- ComplianceAgent._get_entry_content: five text fields joined by single
spaces and lower-cased. -/
def complianceContent (e : BudgetEntry) : String :=
  pyLower (orEmpty e.nazwa_zadania ++ " " ++ orEmpty e.opis_projektu ++ " " ++
           orEmpty e.szczegolowe_uzasadnienie ++ " " ++ orEmpty e.zadanie_inwestycyjne ++
           " " ++ orEmpty e.uwagi)

structure ParagrafCheck where
  warnings : List String
  suggested_paragraf : Option Nat
deriving DecidableEq

/-- ComplianceAgent._validate_paragraf.  Warning records are abbreviated to
stable tags; only their presence and count matter downstream. -/
def validateParagraf (e : BudgetEntry) : ParagrafCheck :=
  if !(pyTruthyNat e.paragraf) then
    { warnings := ["brak paragrafu"], suggested_paragraf := none }
  else
    let p := e.paragraf.getD 0
    match paragrafGroup p with
    | none => { warnings := ["nieznany paragraf"], suggested_paragraf := none }
    | some g =>
      let content := complianceContent e
      let inv : List String × Option Nat :=
        if g = "current" then
          match INVESTMENT_KEYWORDS.find? (fun k => strContains k content) with
          | some k => (["inwestycyjne slowo kluczowe " ++ k], some 6060)
          | none => ([], none)
        else ([], none)
      let cur : List String :=
        if g = "investment" then
          match CURRENT_KEYWORDS.find? (fun k => strContains k content) with
          | some k => ["biezace slowo kluczowe " ++ k]
          | none => []
        else []
      { warnings := inv.1 ++ cur, suggested_paragraf := inv.2 }

/-- Does re.match(r to the BZ pattern) succeed?  The pattern is
four dot-separated digit runs, an optional trailing dot, and the dollar
anchor, which in Python also matches just before one final newline. -/
def chompDigits1 (l : List Char) : Option (List Char) :=
  let d := l.takeWhile Char.isDigit
  if d.isEmpty then none else some (l.dropWhile Char.isDigit)

def chompDot : List Char → Option (List Char)
  | x :: rest => if x = '.' then some rest else none
  | [] => none

def bzFormatOk (s : String) : Bool :=
  match chompDigits1 s.toList >>= chompDot >>= chompDigits1 >>= chompDot >>=
        chompDigits1 >>= chompDot >>= chompDigits1 with
  | none => false
  | some rest => rest == [] || rest == ['.'] || rest == ['\n'] || rest == ['.', '\n']

structure ClassificationCheck where
  warnings : List String
  auto_corrections : List String
deriving DecidableEq

/-- ComplianceAgent._validate_classification.  Note that the source only ever
appends to warnings; auto_corrections is left empty on every path. -/
def validateClassification (e : BudgetEntry) : ClassificationCheck :=
  if !(pyTruthyNat e.paragraf) then { warnings := [], auto_corrections := [] }
  else if pyTruthyStr e.beneficjent_zadaniowy then
    let bz : String := orEmpty e.beneficjent_zadaniowy
    if !(bzFormatOk bz) && bz != "0" && !(["nd", "n/d", "nan", ""].contains (pyLower bz)) then
      { warnings := ["zly format BZ"], auto_corrections := [] }
    else { warnings := [], auto_corrections := [] }
  else { warnings := [], auto_corrections := [] }

/-- ComplianceAgent._validate_amounts. -/
def validateAmounts (e : BudgetEntry) : List String :=
  let a25 := (e.kwota_2025).getD 0
  let a26 := (e.kwota_2026).getD 0
  let a27 := (e.kwota_2027).getD 0
  let a28 := (e.kwota_2028).getD 0
  let a29 := (e.kwota_2029).getD 0
  let maxAmount := max (max (max (max a25 a26) a27) a28) a29
  (if maxAmount > 50000 then ["wysokie wydatki"] else []) ++
  (if e.is_obligatory = true ∧ a25 > 0 ∧ a26 < a25 * (1 / 2) then ["spadek finansowania"] else []) ++
  (if pyTruthyNat e.paragraf = true ∧ 6000 ≤ e.paragraf.getD 0 ∧ a25 > 1000 ∧
      a26 = 0 ∧ a27 = 0 ∧ a28 = 0 ∧ a29 = 0 then ["inwestycja bez planowania"] else [])

/-- ComplianceAgent._validate_required_fields. -/
def validateRequiredFields (e : BudgetEntry) : List String :=
  (if pyTruthyStr e.nazwa_zadania = false ∧ pyTruthyStr e.opis_projektu = false then
     ["brak nazwy"] else []) ++
  (if pyTruthyNat e.department_id = false then ["brak departamentu"] else []) ++
  (if pyTruthyNat e.paragraf = true ∧ 6000 ≤ e.paragraf.getD 0 ∧
      pyTruthyStr e.zadanie_inwestycyjne = false then ["brak zadania inwestycyjnego"] else [])

/-- The paragraf check of validate_entry runs only when the paragraf column is
truthy. -/
def paragrafCheckOf (e : BudgetEntry) : ParagrafCheck :=
  if pyTruthyNat e.paragraf then validateParagraf e
  else { warnings := [], suggested_paragraf := none }

/-- Deduction taken in validate_entry when the paragraf check produced a
suggestion. -/
def paragrafDeduction (e : BudgetEntry) : ℤ :=
  if (paragrafCheckOf e).suggested_paragraf.isSome then 20 else 0

/-- Deduction taken in validate_entry when the classification check recorded
an auto correction. -/
def classificationDeduction (e : BudgetEntry) : ℤ :=
  if (validateClassification e).auto_corrections ≠ [] then 15 else 0

/-- Deduction taken in validate_entry when the amount check warned. -/
def amountsDeduction (e : BudgetEntry) : ℤ :=
  if validateAmounts e ≠ [] then 10 else 0

/-- Deduction taken in validate_entry for required-field warnings. -/
def fieldsDeduction (e : BudgetEntry) : ℤ :=
  5 * (validateRequiredFields e).length

/-- The compliance score of validate_entry before the final floor at 0. -/
def preScore (e : BudgetEntry) : ℤ :=
  100 - paragrafDeduction e - classificationDeduction e - amountsDeduction e - fieldsDeduction e

structure ValidationResult where
  is_valid : Bool
  warnings : List String
  auto_corrections : List String
  suggested_paragraf : Option Nat
  compliance_score : ℤ

/-- ComplianceAgent.validate_entry.  is_valid is computed from the score
before it is floored at 0, exactly as in the source. -/
def validateEntry (e : BudgetEntry) : ValidationResult :=
  let pc := paragrafCheckOf e
  let cc := validateClassification e
  { is_valid := decide (70 ≤ preScore e)
    warnings := pc.warnings ++ cc.warnings ++ validateAmounts e ++ validateRequiredFields e
    auto_corrections :=
      (match pc.suggested_paragraf with
       | some _ => ["paragraf"]
       | none => []) ++ cc.auto_corrections
    suggested_paragraf := pc.suggested_paragraf
    compliance_score := max 0 (preScore e) }

/-! ### Claim C2 -/

lemma paragrafDeduction_nonneg (e : BudgetEntry) : 0 ≤ paragrafDeduction e := by
  unfold paragrafDeduction; split <;> norm_num

lemma classificationDeduction_nonneg (e : BudgetEntry) : 0 ≤ classificationDeduction e := by
  unfold classificationDeduction; split <;> norm_num

lemma amountsDeduction_nonneg (e : BudgetEntry) : 0 ≤ amountsDeduction e := by
  unfold amountsDeduction; split <;> norm_num

lemma fieldsDeduction_nonneg (e : BudgetEntry) : 0 ≤ fieldsDeduction e := by
  unfold fieldsDeduction; positivity

lemma preScore_le_100 (e : BudgetEntry) : preScore e ≤ 100 := by
  have h1 := paragrafDeduction_nonneg e
  have h2 := classificationDeduction_nonneg e
  have h3 := amountsDeduction_nonneg e
  have h4 := fieldsDeduction_nonneg e
  unfold preScore; omega

/-- Claim C2: for every budget entry, validate_entry returns a
compliance_score in [0, 100], and is_valid holds iff the returned score is at
least 70. -/
theorem validateEntry_score_bounds_and_validity (e : BudgetEntry) :
    0 ≤ (validateEntry e).compliance_score ∧
    (validateEntry e).compliance_score ≤ 100 ∧
    ((validateEntry e).is_valid = true ↔ 70 ≤ (validateEntry e).compliance_score) := by
  have hle := preScore_le_100 e
  refine ⟨le_max_left _ _, ?_, ?_⟩
  · simp only [validateEntry]
    exact max_le (by norm_num) hle
  · simp only [validateEntry, decide_eq_true_eq]
    constructor
    · intro h
      exact le_max_of_le_right h
    · intro h
      rcases le_or_lt 70 (preScore e) with h2 | h2
      · exact h2
      · exfalso
        have : max 0 (preScore e) < 70 := by
          rcases max_cases 0 (preScore e) with ⟨heq, _⟩ | ⟨heq, _⟩ <;> omega
        omega

/-! ### Claim C6 -/

lemma pyTruthyNat_some {p : Nat} (hp0 : p ≠ 0) : pyTruthyNat (some p) = true := by
  simp [pyTruthyNat, hp0]

lemma validateParagraf_of_current (e : BudgetEntry) (p : Nat)
    (hp : e.paragraf = some p) (hp0 : p ≠ 0)
    (hg : paragrafGroup p = some "current")
    (hk : ∃ k ∈ INVESTMENT_KEYWORDS, strContains k (complianceContent e) = true) :
    ∃ k0, validateParagraf e =
      { warnings := ["inwestycyjne slowo kluczowe " ++ k0], suggested_paragraf := some 6060 } := by
  obtain ⟨k0, hfind⟩ : ∃ k0,
      INVESTMENT_KEYWORDS.find? (fun k => strContains k (complianceContent e)) = some k0 := by
    rw [← Option.isSome_iff_exists, List.find?_isSome]
    obtain ⟨k, hk1, hk2⟩ := hk
    exact ⟨k, hk1, hk2⟩
  refine ⟨k0, ?_⟩
  unfold validateParagraf
  rw [hp]
  simp only [pyTruthyNat_some hp0, Bool.not_true, Bool.false_eq_true, if_false,
    Option.getD_some, hg, hfind]
  norm_num
  intro h
  exact absurd h (by decide)

/-- Claim C6: for every entry whose paragraf is known, tagged current, and
whose concatenated text contains an investment keyword, validate_entry
warns, suggests paragraf 6060, and the paragraf check deducts exactly 20. -/
theorem validateEntry_current_with_investment_keyword (e : BudgetEntry) (p : Nat)
    (hp : e.paragraf = some p) (hp0 : p ≠ 0)
    (hg : paragrafGroup p = some "current")
    (hk : ∃ k ∈ INVESTMENT_KEYWORDS, strContains k (complianceContent e) = true) :
    (validateEntry e).suggested_paragraf = some 6060 ∧
    (validateParagraf e).warnings ≠ [] ∧
    paragrafDeduction e = 20 := by
  obtain ⟨k0, hvp⟩ := validateParagraf_of_current e p hp hp0 hg hk
  have hco : paragrafCheckOf e = validateParagraf e := by
    unfold paragrafCheckOf
    rw [hp, pyTruthyNat_some hp0]
    simp
  refine ⟨?_, ?_, ?_⟩
  · show (paragrafCheckOf e).suggested_paragraf = some 6060
    rw [hco, hvp]
  · rw [hvp]; simp
  · unfold paragrafDeduction
    rw [hco, hvp]
    simp

def exC6 : BudgetEntry :=
  { id := 1, paragraf := some 4300, nazwa_zadania := some "serwer backup",
    department_id := some 1 }

/-- Witness for C6 at a concrete entry: paragraf 4300 (current group) with
the keyword serwer in its name. -/
theorem validateEntry_current_with_investment_keyword_witness :
    exC6.paragraf = some 4300 ∧
    paragrafGroup 4300 = some "current" ∧
    (∃ k ∈ INVESTMENT_KEYWORDS, strContains k (complianceContent exC6) = true) ∧
    ((validateEntry exC6).suggested_paragraf = some 6060 ∧
     (validateParagraf exC6).warnings ≠ [] ∧
     paragrafDeduction exC6 = 20) :=
  ⟨rfl, by decide, by decide,
   validateEntry_current_with_investment_keyword exC6 4300 rfl (by decide) (by decide) (by decide)⟩

/-! ### Claim C7 -/

/-- The classification check never records an auto correction: the deduction
of 15 in validate_entry is dead code. -/
lemma validateClassification_auto_corrections_nil (e : BudgetEntry) :
    (validateClassification e).auto_corrections = [] := by
  unfold validateClassification
  split
  · rfl
  · split
    · dsimp only
      split <;> rfl
    · rfl

lemma classificationDeduction_eq_zero (e : BudgetEntry) : classificationDeduction e = 0 := by
  unfold classificationDeduction
  rw [if_neg]
  simp [validateClassification_auto_corrections_nil e]

def exC7 : BudgetEntry :=
  { id := 2, paragraf := some 4300, beneficjent_zadaniowy := some "XYZ",
    nazwa_zadania := some "abc", department_id := some 3 }

lemma validateAmounts_exC7 : validateAmounts exC7 = [] := by
  norm_num [validateAmounts, exC7, pyTruthyNat]

/-- Counterexample to claim C7 as stated: this entry has a paragraf and a
malformed, non-sentinel BZ code, validate_entry emits the format warning,
yet the compliance score stays at 100 — it is not reduced by 15. -/
theorem validateClassification_no_deduction_cex :
    (validateEntry exC7).warnings = ["zly format BZ"] ∧
    (validateEntry exC7).compliance_score = 100 := by
  have hpc : paragrafCheckOf exC7 =
      { warnings := [], suggested_paragraf := none } := by decide
  have hcc : validateClassification exC7 =
      { warnings := ["zly format BZ"], auto_corrections := [] } := by decide
  have hrf : validateRequiredFields exC7 = [] := by decide
  have hpre : preScore exC7 = 100 := by
    unfold preScore paragrafDeduction amountsDeduction fieldsDeduction
    rw [hpc, classificationDeduction_eq_zero, validateAmounts_exC7, hrf]
    simp
  constructor
  · show (paragrafCheckOf exC7).warnings ++ (validateClassification exC7).warnings ++
      validateAmounts exC7 ++ validateRequiredFields exC7 = ["zly format BZ"]
    rw [hpc, hcc, validateAmounts_exC7, hrf]
    rfl
  · show max 0 (preScore exC7) = 100
    rw [hpre]
    decide

lemma pyTruthyStr_some {s : String} (hs : s ≠ "") : pyTruthyStr (some s) = true := by
  simp only [pyTruthyStr, Option.getD_some, Bool.not_eq_true']
  rw [← Bool.not_eq_true, String.isEmpty_iff]
  exact hs

/-- Claim C7 amended: under the stated conditions validate_entry emits the
format warning, but the score is not reduced — the 15-point deduction only
fires when the classification check records an auto correction, which it
never does. -/
theorem validateClassification_warns_without_deduction (e : BudgetEntry) (p : Nat) (b : String)
    (hp : e.paragraf = some p) (hp0 : p ≠ 0)
    (hbz : e.beneficjent_zadaniowy = some b) (hb : b ≠ "")
    (hfmt : bzFormatOk b = false) (hs0 : b ≠ "0")
    (hsent : (["nd", "n/d", "nan", ""].contains (pyLower b)) = false) :
    "zly format BZ" ∈ (validateEntry e).warnings ∧
    classificationDeduction e = 0 := by
  have hcc : validateClassification e =
      { warnings := ["zly format BZ"], auto_corrections := [] } := by
    unfold validateClassification
    rw [hp, hbz]
    simp only [pyTruthyNat_some hp0, Bool.not_true, Bool.false_eq_true, if_false,
      pyTruthyStr_some hb, if_true]
    rw [if_pos]
    unfold orEmpty
    simp only [Option.getD_some, hfmt, hsent, Bool.not_false, Bool.and_self, Bool.true_and]
    simp [hs0]
  constructor
  · show "zly format BZ" ∈ (paragrafCheckOf e).warnings ++ (validateClassification e).warnings ++
      validateAmounts e ++ validateRequiredFields e
    rw [hcc]
    simp
  · exact classificationDeduction_eq_zero e

/-- Witness for the amended C7 at the concrete entry exC7. -/
theorem validateClassification_warns_without_deduction_witness :
    exC7.beneficjent_zadaniowy = some "XYZ" ∧
    bzFormatOk "XYZ" = false ∧
    ("zly format BZ" ∈ (validateEntry exC7).warnings ∧
     classificationDeduction exC7 = 0) :=
  ⟨rfl, by decide,
   validateClassification_warns_without_deduction exC7 4300 "XYZ" rfl (by decide) rfl
     (by decide) (by decide) (by decide) (by decide)⟩

/-! ## Optimization agent (optimization_agent.py) -/

def PROTECTED_KEYWORDS : List String :=
  ["cyberbezpieczeństwo", "cyber", "security", "bezpieczeństwo",
   "eidas", "rozporządzenie", "ustawa", "prawne", "obligatoryjne",
   "audit", "audyt", "kontrola", "nis2", "dora"]

def DEFERRABLE_KEYWORDS : List String :=
  ["remont", "renovation", "modernizacja", "szkolenie", "training",
   "nowe", "rozwój", "enhancement", "upgrade", "planowane"]

/-- OptimizationAgent._get_entry_content: four text fields joined by single
spaces and lower-cased. -/
def optContent (e : BudgetEntry) : String :=
  pyLower (orEmpty e.nazwa_zadania ++ " " ++ orEmpty e.opis_projektu ++ " " ++
           orEmpty e.szczegolowe_uzasadnienie ++ " " ++ orEmpty e.uwagi)

/-- PRIORITY_WEIGHTS keyed by the PriorityLevel enum value; none when the
PriorityLevel constructor raises ValueError. -/
def priorityWeightOf (s : String) : Option ℤ :=
  if s = "obowiązkowy" then some 100
  else if s = "wysoki" then some 75
  else if s = "średni" then some 50
  else if s = "niski" then some 25
  else if s = "uznaniowy" then some 10
  else none

/-- OptimizationAgent._calculate_deferral_score. -/
def calcDeferralScore (e : BudgetEntry) : ℤ :=
  let pstr := if pyTruthyStr e.priority then orEmpty e.priority else "średni"
  let base : ℤ :=
    match priorityWeightOf pstr with
    | some w => 100 - w
    | none => 50
  let content := optContent e
  let s1 := if PROTECTED_KEYWORDS.any (fun k => strContains k content) then base - 30 else base
  let s2 := if DEFERRABLE_KEYWORDS.any (fun k => strContains k content) then s1 + 20 else s1
  let s3 := if pyTruthyStr e.umowy = true ∧
               strContains "podpisana" (pyLower (orEmpty e.umowy)) = true then s2 - 40 else s2
  let stage := pyLower (orEmpty e.etap_dzialan)
  let s4 := if pyTruthyStr e.etap_dzialan then
              if strContains "realizacja" stage ∨ strContains "w toku" stage then s3 - 25
              else if strContains "planowane" stage then s3 + 15
              else s3
            else s3
  max 0 (min 100 s4)

/-- OptimizationAgent._is_deferrable. -/
def isDeferrable (e : BudgetEntry) : Bool :=
  if pyTruthyStr e.umowy = true ∧
     strContains "podpisana" (pyLower (orEmpty e.umowy)) = true then false
  else
    let stage := pyLower (orEmpty e.etap_dzialan)
    if pyTruthyStr e.etap_dzialan = true ∧
       (strContains "realizacja" stage = true ∨ strContains "w toku" stage = true) then false
    else if PROTECTED_KEYWORDS.any (fun k => strContains k (optContent e)) then false
    else decide (e.priority = some "niski" ∨ e.priority = some "uznaniowy")

structure Store where
  entries : List BudgetEntry
  limits : List GlobalLimit

structure GapAnalysis where
  limit_found : Bool
  global_limit : ℚ
  current_total : ℚ
  variance : ℚ
  is_over_limit : Bool

/-- OptimizationAgent.analyze_budget_gap, restricted to the fields the cut
generator reads.  A missing GlobalLimit row yields the error dictionary of
the source, whose is_over_limit defaults to False downstream. -/
def analyzeBudgetGap (store : Store) (year : Nat) : GapAnalysis :=
  match store.limits.find? (fun gl => gl.year == year) with
  | none =>
    { limit_found := false, global_limit := 0, current_total := 0,
      variance := 0, is_over_limit := false }
  | some gl =>
    let total := (store.entries.map (fun e => amountD e year)).sum
    { limit_found := true, global_limit := gl.total_limit, current_total := total,
      variance := total - gl.total_limit,
      is_over_limit := decide (total - gl.total_limit > 0) }

structure CutSuggestion where
  entry_id : Nat
  nazwa : String
  department : String
  current_amount : ℚ
  suggested_amount : ℚ
  savings : ℚ
  action : String
  priority : String
  deferral_score : ℤ
  is_deferrable : Bool

/-- The suggestion dictionary built for one selected entry (the reason text,
a display string, is not modelled). -/
def mkSuggestion (e : BudgetEntry) (year : Nat) : CutSuggestion :=
  let amt := amountD e year
  let deferOk := isDeferrable e
  let rate : ℚ := if e.priority = some "średni" ∨ e.priority = some "niski" then 3 / 10 else 1 / 5
  let suggested := if deferOk then 0 else amt * (1 - rate)
  { entry_id := e.id
    nazwa := if pyTruthyStr e.nazwa_zadania then orEmpty e.nazwa_zadania
             else if pyTruthyStr e.opis_projektu then orEmpty e.opis_projektu
             else "Brak nazwy"
    department := e.department_code.getD "N/A"
    current_amount := amt
    suggested_amount := suggested
    savings := if deferOk then amt else amt - suggested
    action := if deferOk then "defer" else "reduce"
    priority := if pyTruthyStr e.priority then orEmpty e.priority else "średni"
    deferral_score := calcDeferralScore e
    is_deferrable := deferOk }

/-- The selection loop of generate_cut_suggestions: stop once the cumulative
savings reach the target, skip non-positive amounts, otherwise append a
suggestion and accumulate its savings. -/
def greedyCuts (year : Nat) (target : ℚ) : List BudgetEntry → ℚ → List CutSuggestion × ℚ
  | [], cum => ([], cum)
  | e :: rest, cum =>
    if cum ≥ target then ([], cum)
    else
      let amt := amountD e year
      if amt ≤ 0 then greedyCuts year target rest cum
      else
        let s := mkSuggestion e year
        let r := greedyCuts year target rest (cum + s.savings)
        (s :: r.1, r.2)

/-- SQL ORDER BY priority ASC over the stored priority strings; NULL sorts
first, strings compare bytewise, which for UTF-8 agrees with the codepoint
order of the Lean String order. -/
def optStrLe : Option String → Option String → Bool
  | none, _ => true
  | some _, none => false
  | some x, some y => decide (x ≤ y)

/-- Python falsy-or: `target_reduction or variance`. -/
def pyOrQ (t : Option ℚ) (d : ℚ) : ℚ :=
  match t with
  | none => d
  | some x => if x = 0 then d else x

structure CutResult where
  is_over_limit : Bool
  target_reduction : ℚ
  achievable_reduction : ℚ
  can_meet_target : Bool
  suggestions : List CutSuggestion

/-- OptimizationAgent.generate_cut_suggestions (summary and protected-items
payloads, pure display data, are not modelled). -/
def generateCutSuggestions (store : Store) (target_reduction : Option ℚ) (year : Nat) :
    CutResult :=
  let gap := analyzeBudgetGap store year
  if gap.is_over_limit = false then
    { is_over_limit := false, target_reduction := 0, achievable_reduction := 0,
      can_meet_target := false, suggestions := [] }
  else
    let target := pyOrQ target_reduction gap.variance
    let cuttable := List.insertionSort
      (fun a b => optStrLe a.priority b.priority = true)
      (store.entries.filter (fun e => !e.is_obligatory && decide (amountD e year > 0)))
    let g := greedyCuts year target cuttable 0
    { is_over_limit := true
      target_reduction := target
      achievable_reduction := g.2
      can_meet_target := decide (g.2 ≥ target)
      suggestions := List.insertionSort
        (fun a b => b.deferral_score ≤ a.deferral_score) g.1 }

/-! ### Claim C1 -/

lemma mkSuggestion_entry_id (e : BudgetEntry) (year : Nat) :
    (mkSuggestion e year).entry_id = e.id := rfl

lemma mkSuggestion_savings_le (e : BudgetEntry) (year : Nat)
    (hpos : 0 < amountD e year) :
    (mkSuggestion e year).savings ≤ amountD e year := by
  unfold mkSuggestion
  dsimp only
  split
  · exact le_refl _
  · set amt := amountD e year with hamt
    have hr : (if e.priority = some "średni" ∨ e.priority = some "niski"
        then (3 : ℚ) / 10 else 1 / 5) ≤ 1 := by
      split <;> norm_num
    have hr0 : (0 : ℚ) ≤ (if e.priority = some "średni" ∨ e.priority = some "niski"
        then (3 : ℚ) / 10 else 1 / 5) := by
      split <;> norm_num
    nlinarith

lemma greedyCuts_spec (year : Nat) (target : ℚ) :
    ∀ (l : List BudgetEntry) (cum : ℚ),
      (∀ s ∈ (greedyCuts year target l cum).1, ∃ e ∈ l, s = mkSuggestion e year) ∧
      (greedyCuts year target l cum).2 =
        cum + (((greedyCuts year target l cum).1.map (fun s => s.savings)).sum) ∧
      (((greedyCuts year target l cum).1.map (fun s => s.savings)).sum) ≤
        ((l.map (fun e => max 0 (amountD e year))).sum) := by
  intro l
  induction l with
  | nil =>
    intro cum
    refine ⟨by simp [greedyCuts], by simp [greedyCuts], by simp [greedyCuts]⟩
  | cons e rest ih =>
    intro cum
    by_cases hstop : cum ≥ target
    · refine ⟨?_, ?_, ?_⟩ <;> simp [greedyCuts, hstop]
      have : (0 : ℚ) ≤ (rest.map (fun e => max 0 (amountD e year))).sum := by
        apply List.sum_nonneg
        intro x hx
        obtain ⟨a, _, rfl⟩ := List.mem_map.mp hx
        exact le_max_left 0 _
      have h0 : (0 : ℚ) ≤ max 0 (amountD e year) := le_max_left 0 _
      linarith
    · by_cases hamt : amountD e year ≤ 0
      · obtain ⟨ih1, ih2, ih3⟩ := ih cum
        refine ⟨?_, ?_, ?_⟩
        · intro s hs
          rw [show greedyCuts year target (e :: rest) cum =
            greedyCuts year target rest cum by simp [greedyCuts, hstop, hamt]] at hs
          obtain ⟨e2, he2, rfl⟩ := ih1 s hs
          exact ⟨e2, List.mem_cons_of_mem _ he2, rfl⟩
        · rw [show greedyCuts year target (e :: rest) cum =
            greedyCuts year target rest cum by simp [greedyCuts, hstop, hamt]]
          exact ih2
        · rw [show greedyCuts year target (e :: rest) cum =
            greedyCuts year target rest cum by simp [greedyCuts, hstop, hamt]]
          refine le_trans ih3 ?_
          have h0 : (0 : ℚ) ≤ max 0 (amountD e year) := le_max_left 0 _
          simp only [List.map_cons, List.sum_cons]
          linarith
      · push_neg at hamt
        obtain ⟨ih1, ih2, ih3⟩ := ih (cum + (mkSuggestion e year).savings)
        have hstep : greedyCuts year target (e :: rest) cum =
            ((mkSuggestion e year) ::
              (greedyCuts year target rest (cum + (mkSuggestion e year).savings)).1,
             (greedyCuts year target rest (cum + (mkSuggestion e year).savings)).2) := by
          simp [greedyCuts, hstop, not_le.mpr hamt]
        refine ⟨?_, ?_, ?_⟩
        · intro s hs
          rw [hstep] at hs
          rcases List.mem_cons.mp hs with h | h
          · exact ⟨e, List.mem_cons_self _ _, h⟩
          · obtain ⟨e2, he2, rfl⟩ := ih1 s h
            exact ⟨e2, List.mem_cons_of_mem _ he2, rfl⟩
        · rw [hstep]
          dsimp only
          rw [ih2]
          simp only [List.map_cons, List.sum_cons]
          ring
        · rw [hstep]
          dsimp only
          simp only [List.map_cons, List.sum_cons]
          have hle := mkSuggestion_savings_le e year hamt
          have : amountD e year ≤ max 0 (amountD e year) := le_max_right 0 _
          linarith

/-- Claim C1: when the year total exceeds the global limit, no cut
suggestion refers to an obligatory entry, and the reported achievable
reduction never exceeds the sum of the positive year amounts of the
non-obligatory entries. -/
theorem generateCutSuggestions_safe (store : Store) (target : Option ℚ) (year : Nat)
    (hover : (analyzeBudgetGap store year).is_over_limit = true)
    (hnd : (store.entries.map (fun e => e.id)).Nodup) :
    (∀ s ∈ (generateCutSuggestions store target year).suggestions,
       ∀ e ∈ store.entries, e.id = s.entry_id → e.is_obligatory = false) ∧
    (generateCutSuggestions store target year).achievable_reduction ≤
      ((store.entries.filter (fun e => !e.is_obligatory)).map
         (fun e => max 0 (amountD e year))).sum := by
  have hne : ¬((analyzeBudgetGap store year).is_over_limit = false) := by
    rw [hover]; simp
  set tgt := pyOrQ target (analyzeBudgetGap store year).variance with htgt
  set cuttable := List.insertionSort
      (fun a b => optStrLe a.priority b.priority = true)
      (store.entries.filter (fun e => !e.is_obligatory && decide (amountD e year > 0)))
    with hcut
  have hres : generateCutSuggestions store target year =
      { is_over_limit := true
        target_reduction := tgt
        achievable_reduction := (greedyCuts year tgt cuttable 0).2
        can_meet_target := decide ((greedyCuts year tgt cuttable 0).2 ≥ tgt)
        suggestions := List.insertionSort
          (fun a b => b.deferral_score ≤ a.deferral_score)
          (greedyCuts year tgt cuttable 0).1 } := by
    unfold generateCutSuggestions
    rw [if_neg hne]
  obtain ⟨hg1, hg2, hg3⟩ := greedyCuts_spec year tgt cuttable 0
  have hperm : cuttable.Perm
      (store.entries.filter (fun e => !e.is_obligatory && decide (amountD e year > 0))) :=
    List.perm_insertionSort _ _
  constructor
  · intro s hs e he hid
    rw [hres] at hs
    have hs2 : s ∈ (greedyCuts year tgt cuttable 0).1 :=
      (List.perm_insertionSort _ _).mem_iff.mp hs
    obtain ⟨e2, he2, rfl⟩ := hg1 s hs2
    have he2f : e2 ∈ store.entries.filter
        (fun e => !e.is_obligatory && decide (amountD e year > 0)) :=
      hperm.mem_iff.mp he2
    have he2mem : e2 ∈ store.entries := List.mem_of_mem_filter he2f
    have he2ob : e2.is_obligatory = false := by
      have := List.of_mem_filter he2f
      simp only [Bool.and_eq_true, Bool.not_eq_true'] at this
      exact this.1
    have heq : e = e2 :=
      List.inj_on_of_nodup_map hnd he he2mem (by rw [hid, mkSuggestion_entry_id])
    rw [heq]
    exact he2ob
  · rw [hres]
    dsimp only
    have hzero : (greedyCuts year tgt cuttable 0).2 =
        (((greedyCuts year tgt cuttable 0).1.map (fun s => s.savings)).sum) := by
      rw [hg2]; ring
    rw [hzero]
    refine le_trans hg3 ?_
    have hmapperm : (cuttable.map (fun e => max 0 (amountD e year))).Perm
        ((store.entries.filter (fun e => !e.is_obligatory && decide (amountD e year > 0))).map
          (fun e => max 0 (amountD e year))) := hperm.map _
    rw [hmapperm.sum_eq]
    have hff : store.entries.filter (fun e => !e.is_obligatory && decide (amountD e year > 0)) =
        (store.entries.filter (fun e => !e.is_obligatory)).filter
          (fun e => decide (amountD e year > 0)) := by
      rw [List.filter_filter]
      apply List.filter_congr
      intro x _
      rw [Bool.and_comm]
    rw [hff]
    apply List.Sublist.sum_le_sum
    · exact (List.filter_sublist _).map _
    · intro a ha
      obtain ⟨x, _, rfl⟩ := List.mem_map.mp ha
      exact le_max_left 0 _

def exStoreC1 : Store :=
  { entries :=
      [{ id := 11, kwota_2025 := some 80, priority := some "niski", department_id := some 1 },
       { id := 12, kwota_2025 := some 50, priority := some "obowiązkowy",
         is_obligatory := true, department_id := some 2 }]
    limits := [{ year := 2025, total_limit := 100 }] }

/-- Witness for C1: a store 30 over its limit of 100, one obligatory and one
cuttable entry. -/
theorem generateCutSuggestions_safe_witness :
    (analyzeBudgetGap exStoreC1 2025).is_over_limit = true ∧
    (exStoreC1.entries.map (fun e => e.id)).Nodup ∧
    (generateCutSuggestions exStoreC1 none 2025).achievable_reduction ≤
      ((exStoreC1.entries.filter (fun e => !e.is_obligatory)).map
         (fun e => max 0 (amountD e 2025))).sum := by
  have h1 : (analyzeBudgetGap exStoreC1 2025).is_over_limit = true := by
    have hfl : exStoreC1.limits.find? (fun gl => gl.year == 2025) =
        some { year := 2025, total_limit := 100 } := rfl
    have hmap : exStoreC1.entries.map (fun e => amountD e 2025) = [80, 50] := rfl
    unfold analyzeBudgetGap
    rw [hfl]
    dsimp only
    rw [hmap]
    norm_num
  have h2 : (exStoreC1.entries.map (fun e => e.id)).Nodup := by
    simp [exStoreC1]
  exact ⟨h1, h2, (generateCutSuggestions_safe exStoreC1 none 2025 h1 h2).2⟩

/-! ### Claim C10 -/

structure ApplyResult where
  success : Bool
  entry_id : Nat
  action : String
  old_amount : Option ℚ
  new_amount : ℚ

/-- db.query(BudgetEntry).filter(id == entry_id).first(). -/
def findEntry : List BudgetEntry → Nat → Option BudgetEntry
  | [], _ => none
  | e :: rest, eid => if e.id == eid then some e else findEntry rest eid

/-- Mutation of the first row matching the id, as the loaded ORM object. -/
def updateEntryFirst (entries : List BudgetEntry) (eid : Nat)
    (f : BudgetEntry → BudgetEntry) : List BudgetEntry :=
  match entries with
  | [] => []
  | e :: rest => if e.id == eid then f e :: rest else e :: updateEntryFirst rest eid f

/-- The per-entry mutation of apply_suggestion.  For the defer action the
source adds a possibly-None old amount, a TypeError on None; the model reads
None as 0 there, which no claim exercises.  The appended audit remark is
modelled without its interpolated numbers. -/
def applyMutation (action : String) (new_amount : Option ℚ) (year : Nat)
    (e : BudgetEntry) : BudgetEntry :=
  let old := kwotaField e year
  let e1 :=
    if action = "defer" then
      let ez := setKwota e year (some 0)
      let nextv := (kwotaField ez (year + 1)).getD 0
      let ez2 := setKwota ez (year + 1) (some (nextv + old.getD 0))
      { ez2 with uwagi := some (orEmpty e.uwagi ++ "\n[ODROCZONO z " ++ toString year ++ "]") }
    else if action = "reduce" ∧ new_amount ≠ none then
      let er := setKwota e year new_amount
      { er with uwagi := some (orEmpty e.uwagi ++ "\n[ZREDUKOWANO]") }
    else e
  { e1 with status := "needs_revision" }

/-- OptimizationAgent.apply_suggestion: the updated store and the returned
dictionary. -/
def applySuggestion (entries : List BudgetEntry) (entry_id : Nat) (action : String)
    (new_amount : Option ℚ) (year : Nat) : List BudgetEntry × ApplyResult :=
  match findEntry entries entry_id with
  | none =>
    (entries, { success := false, entry_id := entry_id, action := action,
                old_amount := none, new_amount := 0 })
  | some entry =>
    (updateEntryFirst entries entry_id (applyMutation action new_amount year),
     { success := true, entry_id := entry_id, action := action,
       old_amount := kwotaField entry year, new_amount := new_amount.getD 0 })

lemma findEntry_updateEntryFirst (entries : List BudgetEntry) (eid : Nat)
    (f : BudgetEntry → BudgetEntry) (e : BudgetEntry)
    (hfind : findEntry entries eid = some e) (hid : (f e).id = e.id) :
    findEntry (updateEntryFirst entries eid f) eid = some (f e) := by
  induction entries with
  | nil => simp [findEntry] at hfind
  | cons e0 rest ih =>
    by_cases h0 : (e0.id == eid) = true
    · have he : e = e0 := by
        unfold findEntry at hfind
        rw [if_pos h0] at hfind
        exact (Option.some_injective _ hfind).symm
      unfold updateEntryFirst
      rw [if_pos h0]
      unfold findEntry
      rw [if_pos]
      · rw [he]
      · rw [he] at hid
        rw [hid]
        exact h0
    · have hfind2 : findEntry rest eid = some e := by
        unfold findEntry at hfind
        rw [if_neg h0] at hfind
        exact hfind
      unfold updateEntryFirst
      rw [if_neg h0]
      unfold findEntry
      rw [if_neg h0]
      exact ih hfind2

/-- Claim C10: apply_suggestion with action reduce and no new amount leaves
every yearly amount unchanged, still sets the entry status to
needs_revision, and reports success with new_amount 0. -/
theorem applySuggestion_reduce_none (entries : List BudgetEntry) (eid year : Nat)
    (e : BudgetEntry) (hfind : findEntry entries eid = some e) :
    (applySuggestion entries eid "reduce" none year).2.success = true ∧
    (applySuggestion entries eid "reduce" none year).2.new_amount = 0 ∧
    (applySuggestion entries eid "reduce" none year).1 =
      updateEntryFirst entries eid (fun x => { x with status := "needs_revision" }) ∧
    findEntry (applySuggestion entries eid "reduce" none year).1 eid =
      some { e with status := "needs_revision" } := by
  have hmut : applyMutation "reduce" none year = fun x => { x with status := "needs_revision" } := by
    funext x
    rfl
  have happ : applySuggestion entries eid "reduce" none year =
      (updateEntryFirst entries eid (applyMutation "reduce" none year),
       { success := true, entry_id := eid, action := "reduce",
         old_amount := kwotaField e year, new_amount := 0 }) := by
    unfold applySuggestion
    rw [hfind]
    rfl
  refine ⟨by rw [happ], by rw [happ], by rw [happ, hmut], ?_⟩
  rw [happ]
  dsimp only
  rw [hmut]
  exact findEntry_updateEntryFirst entries eid _ e hfind rfl

def exEntryC10 : BudgetEntry :=
  { id := 7, kwota_2025 := some 10, kwota_2026 := some 20, nazwa_zadania := some "zadanie" }

def exEntriesC10 : List BudgetEntry := [exEntryC10]

/-- Witness for C10 at a concrete one-entry store. -/
theorem applySuggestion_reduce_none_witness :
    findEntry exEntriesC10 7 = some exEntryC10 ∧
    ((applySuggestion exEntriesC10 7 "reduce" none 2025).2.success = true ∧
     (applySuggestion exEntriesC10 7 "reduce" none 2025).2.new_amount = 0 ∧
     (applySuggestion exEntriesC10 7 "reduce" none 2025).1 =
       updateEntryFirst exEntriesC10 7 (fun x => { x with status := "needs_revision" }) ∧
     findEntry (applySuggestion exEntriesC10 7 "reduce" none 2025).1 7 =
       some { exEntryC10 with status := "needs_revision" }) :=
  ⟨rfl, applySuggestion_reduce_none exEntriesC10 7 2025 exEntryC10 rfl⟩

/-! ## Conflict agent (conflict_agent.py) -/

def CATEGORY_KEYWORDS : List (String × List String) :=
  [("software_licenses", ["licencja", "license", "microsoft", "office", "oprogramowanie",
                          "software", "subskrypcja"]),
   ("hardware", ["serwer", "server", "sprzęt", "hardware", "komputer", "laptop", "urządzenia"]),
   ("network", ["sieciowe", "network", "switch", "router", "firewall", "wifi", "lan", "wan"]),
   ("consulting", ["konsulting", "consulting", "doradztwo", "ekspertyza", "analiza", "audyt"]),
   ("training", ["szkolenie", "training", "kurs", "certyfikacja", "edukacja"]),
   ("maintenance", ["utrzymanie", "maintenance", "serwis", "support", "wsparcie"]),
   ("renovation", ["remont", "renovation", "modernizacja", "adaptacja"]),
   ("security", ["bezpieczeństwo", "security", "cyber", "ochrona", "monitoring"])]

/-- Word characters of the regex class w under re.UNICODE: ASCII
alphanumerics, the underscore, and (for the Polish letters that occur in this
corpus) the non-ASCII codepoints. -/
def isPyWordChar (c : Char) : Bool := c.isAlphanum || c == '_' || decide (c.val ≥ 128)

/-- Whitespace characters of the regex class s, ASCII part. -/
def isPySpace (c : Char) : Bool :=
  c == ' ' || c == '\t' || c == '\n' || c == '\r' || c == '\x0b' || c == '\x0c'

/-- re.sub of the class [^ws] by a single space. -/
def stripPunct (l : List Char) : List Char :=
  l.map (fun c => if isPyWordChar c || isPySpace c then c else ' ')

/-- Maximal whitespace-free runs, accumulator-reversed. -/
def pyWordsAux : List Char → List Char → List (List Char)
  | [], acc => if acc.isEmpty then [] else [acc.reverse]
  | c :: cs, acc =>
    if isPySpace c then
      if acc.isEmpty then pyWordsAux cs [] else acc.reverse :: pyWordsAux cs []
    else pyWordsAux cs (c :: acc)

/-- re.sub of s+ by one space followed by strip: the words joined by single
spaces. -/
def collapseWs (l : List Char) : List Char := List.intercalate [' '] (pyWordsAux l [])

/-- ConflictAgent._normalize_content on the three text fields. -/
def normalizeContent (e : BudgetEntry) : List Char :=
  collapseWs (stripPunct (pyLower (orEmpty e.nazwa_zadania ++ " " ++ orEmpty e.opis_projektu ++
    " " ++ orEmpty e.szczegolowe_uzasadnienie)).toList)

/-- The set of category tags whose keyword list hits the content. -/
def categoryTags (content : List Char) : Finset String :=
  ((CATEGORY_KEYWORDS.filter (fun ck => ck.2.any (fun k => containsSub k.toList content))).map
    Prod.fst).toFinset

/-- ConflictAgent._category_similarity: Jaccard index of the tag sets, 0 when
either side is untagged. -/
def categorySim (ca cb : List Char) : ℚ :=
  let A := categoryTags ca
  let B := categoryTags cb
  if A = ∅ ∨ B = ∅ then 0
  else if (A ∪ B).card ≠ 0 then ((A ∩ B).card : ℚ) / ((A ∪ B).card : ℚ) else 0

/-! ### difflib.SequenceMatcher, embedded for isjunk = None and sequences of
fewer than 200 elements.  In that regime the junk sets are empty, so
find_longest_match returns the longest common block, ties broken by least
first index and then least second index, and the post-selection extension
loops of the library can never fire (a maximal block is inextensible). -/

/-- Length of the longest common prefix. -/
def lcpLen : List Char → List Char → Nat
  | a :: as, b :: bs => if a = b then lcpLen as bs + 1 else 0
  | _, _ => 0

/-- The index pairs scanned by find_longest_match: first index outer and
ascending, second index inner and ascending. -/
def flmPairs (alo ahi blo bhi : Nat) : List (Nat × Nat) :=
  (List.range' alo (ahi - alo)).flatMap
    (fun i => (List.range' blo (bhi - blo)).map (fun j => (i, j)))

/-- One update of the best block: keep the first strictly longer diagonal
run, exactly the update discipline of the j2len scan of the library. -/
def flmStep (a b : List Char) (ahi bhi : Nat) (best : Nat × Nat × Nat) (ij : Nat × Nat) :
    Nat × Nat × Nat :=
  let k := lcpLen ((a.take ahi).drop ij.1) ((b.take bhi).drop ij.2)
  if best.2.2 < k then (ij.1, ij.2, k) else best

/-- find_longest_match on a[alo:ahi] and b[blo:bhi]. -/
def flmFold (a b : List Char) (alo ahi blo bhi : Nat) : Nat × Nat × Nat :=
  (flmPairs alo ahi blo bhi).foldl (flmStep a b ahi bhi) (alo, blo, 0)

/-- Total size of the matching blocks of get_matching_blocks: recurse left
and right of the longest match.  Fuel bounds the recursion depth; the
initial fuel of smTotal dominates it. -/
def smTotalGo (a b : List Char) : Nat → Nat → Nat → Nat → Nat → Nat
  | 0, _, _, _, _ => 0
  | fuel + 1, alo, ahi, blo, bhi =>
    let m := flmFold a b alo ahi blo bhi
    if m.2.2 = 0 then 0
    else smTotalGo a b fuel alo m.1 blo m.2.1 + m.2.2 +
         smTotalGo a b fuel (m.1 + m.2.2) ahi (m.2.1 + m.2.2) bhi

def smTotal (a b : List Char) : Nat :=
  smTotalGo a b (a.length + b.length + 1) 0 a.length 0 b.length

/-- SequenceMatcher(None, a, b) followed by the 2M/T formula of its
similarity method; 1.0 when both sequences are empty. -/
def seqSimilarity (a b : List Char) : ℚ :=
  if a.length + b.length = 0 then 1
  else 2 * (smTotal a b : ℚ) / ((a.length : ℚ) + (b.length : ℚ))

/-- ConflictAgent._calculate_similarity. -/
def similarityScore (ea eb : BudgetEntry) : ℚ :=
  let ca := normalizeContent ea
  let cb := normalizeContent eb
  let stringSim := seqSimilarity ca cb
  let catSim := categorySim ca cb
  let paragrafSim : ℚ := if ea.paragraf = eb.paragraf then 1 else 0
  stringSim * (2 / 5) + catSim * (2 / 5) + paragrafSim * (1 / 5)

/-- A conflict record; department ids of the pair stand in for the display
codes of the dictionary, and the similarity is kept exact where the source
rounds it to two decimals for display. -/
structure Conflict where
  entry_a_id : Nat
  entry_b_id : Nat
  entry_a_department : Option Nat
  entry_b_department : Option Nat
  similarity_score : ℚ
  conflict_type : String
  potential_savings : ℚ
  combined_amount : ℚ

def mkConflict (ea eb : BudgetEntry) (sim : ℚ) (year : Nat) : Conflict :=
  let amtA := amountD ea year
  let amtB := amountD eb year
  { entry_a_id := ea.id
    entry_b_id := eb.id
    entry_a_department := ea.department_id
    entry_b_department := eb.department_id
    similarity_score := sim
    conflict_type :=
      if sim ≥ 17 / 20 then "duplicate"
      else if sim ≥ 7 / 10 then "overlap"
      else "semantic_similar"
    potential_savings := (amtA + amtB) * (3 / 20)
    combined_amount := amtA + amtB }

/-- tuple(sorted([a.id, b.id])). -/
def pairKey (x y : Nat) : Nat × Nat := (min x y, max x y)

/-- The inner loop of detect_conflicts for one fixed left entry, threading
the processed-pairs set. -/
def scanWith (year : Nat) (a : BudgetEntry) :
    List BudgetEntry → List (Nat × Nat) → List Conflict × List (Nat × Nat)
  | [], pr => ([], pr)
  | b :: rest, pr =>
    if a.department_id = b.department_id then scanWith year a rest pr
    else if pairKey a.id b.id ∈ pr then scanWith year a rest pr
    else
      let pr2 := pairKey a.id b.id :: pr
      let sim := similarityScore a b
      if sim ≥ 3 / 5 then
        let r := scanWith year a rest pr2
        (mkConflict a b sim year :: r.1, r.2)
      else scanWith year a rest pr2

/-- The two nested loops of detect_conflicts. -/
def conflictScan (year : Nat) : List BudgetEntry → List (Nat × Nat) → List Conflict
  | [], _ => []
  | a :: rest, pr =>
    let r := scanWith year a rest pr
    r.1 ++ conflictScan year rest r.2

/-- ConflictAgent.detect_conflicts: positive-amount entries, pairwise scan,
result sorted by similarity descending (the database upsert side effect is
not modelled). -/
def detectConflicts (entries : List BudgetEntry) (year : Nat) : List Conflict :=
  let pos := entries.filter (fun e => decide (amountD e year > 0))
  List.insertionSort (fun c d => d.similarity_score ≤ c.similarity_score)
    (conflictScan year pos [])

/-! ## Conflict resolution (resolve_conflict) -/

structure BudgetConflictRow where
  id : Nat
  entry_a_id : Nat
  entry_b_id : Nat
  resolution_status : String := "pending"

def findConflict : List BudgetConflictRow → Nat → Option BudgetConflictRow
  | [], _ => none
  | c :: rest, cid => if c.id == cid then some c else findConflict rest cid

def updateConflictFirst (conflicts : List BudgetConflictRow) (cid : Nat)
    (f : BudgetConflictRow → BudgetConflictRow) : List BudgetConflictRow :=
  match conflicts with
  | [] => []
  | c :: rest => if c.id == cid then f c :: rest else c :: updateConflictFirst rest cid f

/-- New state of the kept entry: every year amount becomes the sum of both
original amounts discounted by 15 percent. -/
def consolidateKeep (keepE removeE : BudgetEntry) : BudgetEntry :=
  { keepE with
    kwota_2025 := some (((keepE.kwota_2025).getD 0 + (removeE.kwota_2025).getD 0) * (17 / 20))
    kwota_2026 := some (((keepE.kwota_2026).getD 0 + (removeE.kwota_2026).getD 0) * (17 / 20))
    kwota_2027 := some (((keepE.kwota_2027).getD 0 + (removeE.kwota_2027).getD 0) * (17 / 20))
    kwota_2028 := some (((keepE.kwota_2028).getD 0 + (removeE.kwota_2028).getD 0) * (17 / 20))
    kwota_2029 := some (((keepE.kwota_2029).getD 0 + (removeE.kwota_2029).getD 0) * (17 / 20))
    uwagi := some (orEmpty keepE.uwagi ++ "\n[SKONSOLIDOWANO z pozycji " ++
      toString removeE.id ++ "]") }

/-- New state of the removed entry: the source zeroes 2025, 2026 and 2027
only, leaving 2028 and 2029 untouched. -/
def consolidateRemove (removeE : BudgetEntry) (keepId : Nat) : BudgetEntry :=
  { removeE with
    kwota_2025 := some 0
    kwota_2026 := some 0
    kwota_2027 := some 0
    uwagi := some (orEmpty removeE.uwagi ++ "\n[PRZENIESIONO do pozycji " ++
      toString keepId ++ "]") }

structure ResolveResult where
  success : Bool
  resolution : String

/-- ConflictAgent.resolve_conflict (resolution notes are not modelled). -/
def resolveConflict (conflicts : List BudgetConflictRow) (entries : List BudgetEntry)
    (conflict_id : Nat) (resolution : String) (keep_entry_id : Option Nat) :
    List BudgetConflictRow × List BudgetEntry × ResolveResult :=
  match findConflict conflicts conflict_id with
  | none => (conflicts, entries, { success := false, resolution := resolution })
  | some conflict =>
    if resolution = "consolidate" ∧ pyTruthyNat keep_entry_id = false then
      (conflicts, entries, { success := false, resolution := resolution })
    else
      let entries2 :=
        if resolution = "consolidate" then
          let keepId := keep_entry_id.getD 0
          let removeId :=
            if keepId = conflict.entry_a_id then conflict.entry_b_id else conflict.entry_a_id
          match findEntry entries keepId, findEntry entries removeId with
          | some keepE, some removeE =>
            updateEntryFirst
              (updateEntryFirst entries keepId (fun _ => consolidateKeep keepE removeE))
              removeId (fun _ => consolidateRemove removeE keepId)
          | _, _ => entries
        else entries
      (updateConflictFirst conflicts conflict_id
         (fun cf => { cf with resolution_status := "resolved" }),
       entries2,
       { success := true, resolution := resolution })

/-! ### Self-similarity of the sequence matcher -/

lemma lcpLen_self : ∀ l : List Char, lcpLen l l = l.length
  | [] => rfl
  | a :: as => by
    unfold lcpLen
    rw [if_pos rfl, lcpLen_self as]
    rfl

lemma lcpLen_le_left : ∀ a b : List Char, lcpLen a b ≤ a.length
  | [], _ => by simp [lcpLen]
  | _ :: _, [] => by simp [lcpLen]
  | a :: as, b :: bs => by
    unfold lcpLen
    split
    · have := lcpLen_le_left as bs
      simp only [List.length_cons]
      omega
    · simp

lemma lcpLen_le_right : ∀ a b : List Char, lcpLen a b ≤ b.length
  | [], _ => by simp [lcpLen]
  | _ :: _, [] => by simp [lcpLen]
  | a :: as, b :: bs => by
    unfold lcpLen
    split
    · have := lcpLen_le_right as bs
      simp only [List.length_cons]
      omega
    · simp

lemma foldl_fixed {α β : Type} (f : β → α → β) (b : β) :
    ∀ l : List α, (∀ x ∈ l, f b x = b) → l.foldl f b = b
  | [], _ => rfl
  | x :: xs, h => by
    rw [List.foldl_cons, h x (List.mem_cons_self x xs)]
    exact foldl_fixed f b xs (fun y hy => h y (List.mem_cons_of_mem x hy))

lemma flmStep_self_fixed (c : List Char) (ij : Nat × Nat) (hij : 1 ≤ ij.1 ∨ 1 ≤ ij.2) :
    flmStep c c c.length c.length (0, 0, c.length) ij = (0, 0, c.length) := by
  unfold flmStep
  rw [if_neg]
  dsimp only
  rw [List.take_length]
  rcases hij with h | h
  · have h1 : lcpLen (c.drop ij.1) (c.drop ij.2) ≤ c.length - ij.1 := by
      have := lcpLen_le_left (c.drop ij.1) (c.drop ij.2)
      simpa using this
    omega
  · have h1 : lcpLen (c.drop ij.1) (c.drop ij.2) ≤ c.length - ij.2 := by
      have := lcpLen_le_right (c.drop ij.1) (c.drop ij.2)
      simpa using this
    omega

lemma flmFold_self (c : List Char) (hpos : 0 < c.length) :
    flmFold c c 0 c.length 0 c.length = (0, 0, c.length) := by
  obtain ⟨m, hm⟩ : ∃ m, c.length = m + 1 := ⟨c.length - 1, by omega⟩
  have hr : List.range' 0 c.length = 0 :: List.range' 1 m := by
    rw [hm, List.range'_succ]
  unfold flmFold flmPairs
  rw [Nat.sub_zero, hr, List.flatMap_cons, List.map_cons, List.foldl_append, List.foldl_cons]
  have hfirst : flmStep c c c.length c.length (0, 0, 0) (0, 0) = (0, 0, c.length) := by
    unfold flmStep
    dsimp only
    rw [List.take_length, List.drop_zero, lcpLen_self, if_pos hpos]
  rw [hfirst]
  have hrest1 : List.foldl (flmStep c c c.length c.length) (0, 0, c.length)
      ((List.range' 1 m).map (fun j => (0, j))) = (0, 0, c.length) := by
    apply foldl_fixed
    intro ij hij
    obtain ⟨j, hj, rfl⟩ := List.mem_map.mp hij
    apply flmStep_self_fixed
    right
    exact (List.mem_range'_1.mp hj).1
  rw [hrest1]
  apply foldl_fixed
  intro ij hij
  obtain ⟨i, hi, hmem⟩ := List.mem_flatMap.mp hij
  obtain ⟨j, hj, rfl⟩ := List.mem_map.mp hmem
  apply flmStep_self_fixed
  left
  exact (List.mem_range'_1.mp hi).1

lemma flmFold_empty_left (a b : List Char) (alo blo bhi : Nat) :
    flmFold a b alo alo blo bhi = (alo, blo, 0) := by
  unfold flmFold flmPairs
  rw [Nat.sub_self]
  rfl

lemma smTotalGo_empty (a b : List Char) :
    ∀ (fuel alo blo bhi : Nat), smTotalGo a b fuel alo alo blo bhi = 0
  | 0, _, _, _ => rfl
  | fuel + 1, alo, blo, bhi => by
    unfold smTotalGo
    rw [flmFold_empty_left]
    simp

lemma smTotal_self (c : List Char) : smTotal c c = c.length := by
  rcases Nat.eq_zero_or_pos c.length with h0 | hpos
  · have hc : c = [] := List.length_eq_zero.mp h0
    subst hc
    rfl
  · unfold smTotal
    obtain ⟨f, hf⟩ : ∃ f, c.length + c.length + 1 = f + 1 := ⟨c.length + c.length, rfl⟩
    rw [hf]
    unfold smTotalGo
    rw [flmFold_self c hpos]
    dsimp only
    rw [if_neg (by omega)]
    rw [smTotalGo_empty]
    have hz : 0 + c.length = c.length := Nat.zero_add _
    rw [hz, smTotalGo_empty]
    omega

lemma seqSimilarity_self (c : List Char) : seqSimilarity c c = 1 := by
  unfold seqSimilarity
  by_cases h : c.length + c.length = 0
  · rw [if_pos h]
  · rw [if_neg h, smTotal_self]
    have hn : (c.length : ℚ) ≠ 0 := by
      have : c.length ≠ 0 := by omega
      exact_mod_cast this
    field_simp
    ring

lemma categorySim_self (ca : List Char) (h : categoryTags ca ≠ ∅) :
    categorySim ca ca = 1 := by
  unfold categorySim
  dsimp only
  rw [if_neg (by simp [h])]
  rw [Finset.union_self, Finset.inter_self]
  have hcard : (categoryTags ca).card ≠ 0 := by
    simpa [Finset.card_eq_zero] using h
  rw [if_pos hcard]
  exact div_self (by exact_mod_cast hcard)

lemma similarityScore_identical (ea eb : BudgetEntry)
    (hn : ea.nazwa_zadania = eb.nazwa_zadania)
    (ho : ea.opis_projektu = eb.opis_projektu)
    (hs : ea.szczegolowe_uzasadnienie = eb.szczegolowe_uzasadnienie)
    (hp : ea.paragraf = eb.paragraf)
    (ht : categoryTags (normalizeContent ea) ≠ ∅) :
    similarityScore ea eb = 1 := by
  have hcc : normalizeContent ea = normalizeContent eb := by
    unfold normalizeContent
    rw [hn, ho, hs]
  unfold similarityScore
  dsimp only
  rw [← hcc, seqSimilarity_self, categorySim_self _ ht, if_pos hp]
  norm_num

/-! ### Claim C4 -/

def exC4A : BudgetEntry :=
  { id := 41, department_id := some 1, paragraf := some 4300, nazwa_zadania := some "qqq" }

def exC4B : BudgetEntry :=
  { id := 42, department_id := some 2, paragraf := some 4300, nazwa_zadania := some "qqq" }

/-- Counterexample to claim C4 as stated: two entries from different
departments with identical texts, identical (empty) tag sets and equal
paragraf score only 0.6, because an empty tag set forces the category
component to 0. -/
theorem similarity_identical_entries_cex :
    exC4A.department_id ≠ exC4B.department_id ∧
    exC4A.nazwa_zadania = exC4B.nazwa_zadania ∧
    exC4A.opis_projektu = exC4B.opis_projektu ∧
    exC4A.szczegolowe_uzasadnienie = exC4B.szczegolowe_uzasadnienie ∧
    categoryTags (normalizeContent exC4A) = categoryTags (normalizeContent exC4B) ∧
    exC4A.paragraf = exC4B.paragraf ∧
    similarityScore exC4A exC4B = 3 / 5 ∧
    (3 / 5 : ℚ) ≠ 1 := by
  have hnA : normalizeContent exC4A = "qqq".toList := by decide
  have hnB : normalizeContent exC4B = "qqq".toList := by decide
  have htagq : categoryTags ("qqq".toList) = ∅ := by decide
  refine ⟨by decide, rfl, rfl, rfl, by rw [hnA, hnB], rfl, ?_, by norm_num⟩
  unfold similarityScore
  dsimp only
  rw [hnA, hnB, seqSimilarity_self]
  have hcat : categorySim ("qqq".toList) ("qqq".toList) = 0 := by
    unfold categorySim
    rw [if_pos (Or.inl htagq)]
  have hpeq : exC4A.paragraf = exC4B.paragraf := rfl
  rw [hcat, if_pos hpeq]
  norm_num

/-- Claim C4 amended: for two entries from different departments with
identical name, description and justification, equal paragraf, and a
NON-EMPTY common tag set, the similarity equals 1.0 (with an empty tag set
it is 0.6, see the counterexample). -/
theorem similarity_identical_tagged_entries_eq_one (ea eb : BudgetEntry)
    (hd : ea.department_id ≠ eb.department_id)
    (hn : ea.nazwa_zadania = eb.nazwa_zadania)
    (ho : ea.opis_projektu = eb.opis_projektu)
    (hs : ea.szczegolowe_uzasadnienie = eb.szczegolowe_uzasadnienie)
    (hp : ea.paragraf = eb.paragraf)
    (ht : categoryTags (normalizeContent ea) ≠ ∅) :
    similarityScore ea eb = 1 :=
  similarityScore_identical ea eb hn ho hs hp ht

def exC4C : BudgetEntry :=
  { id := 43, department_id := some 1, paragraf := some 4300,
    nazwa_zadania := some "licencja microsoft office" }

def exC4D : BudgetEntry :=
  { id := 44, department_id := some 2, paragraf := some 4300,
    nazwa_zadania := some "licencja microsoft office" }

/-- Witness for the amended C4: identical software-license entries in two
departments score exactly 1. -/
theorem similarity_identical_tagged_entries_eq_one_witness :
    exC4C.department_id ≠ exC4D.department_id ∧
    exC4C.nazwa_zadania = exC4D.nazwa_zadania ∧
    exC4C.paragraf = exC4D.paragraf ∧
    categoryTags (normalizeContent exC4C) ≠ ∅ ∧
    similarityScore exC4C exC4D = 1 :=
  ⟨by decide, rfl, rfl, by decide,
   similarity_identical_tagged_entries_eq_one exC4C exC4D (by decide) rfl rfl rfl rfl (by decide)⟩

/-! ### Claim C3 -/

def exC3A : BudgetEntry :=
  { id := 21, department_id := some 1, paragraf := some 4300,
    nazwa_zadania := some "abzcdwef" }

def exC3B : BudgetEntry :=
  { id := 22, department_id := some 2, paragraf := some 4300,
    nazwa_zadania := some "cdvefuab" }

set_option maxRecDepth 16384 in
/-- Counterexample to claim C3 as stated: the SequenceMatcher block total is
direction dependent (2 one way, 4 the other on this pair), so
_calculate_similarity is not symmetric: 0.3 versus 0.4. -/
theorem similarity_not_symmetric_cex :
    similarityScore exC3A exC3B = 3 / 10 ∧
    similarityScore exC3B exC3A = 2 / 5 ∧
    similarityScore exC3A exC3B ≠ similarityScore exC3B exC3A := by
  have hnA : normalizeContent exC3A = "abzcdwef".toList := by decide
  have hnB : normalizeContent exC3B = "cdvefuab".toList := by decide
  have hm1 : smTotal ("abzcdwef".toList) ("cdvefuab".toList) = 2 := by decide
  have hm2 : smTotal ("cdvefuab".toList) ("abzcdwef".toList) = 4 := by decide
  have hlA : ("abzcdwef".toList).length = 8 := by decide
  have hlB : ("cdvefuab".toList).length = 8 := by decide
  have htA : categoryTags ("abzcdwef".toList) = ∅ := by decide
  have hseq1 : seqSimilarity ("abzcdwef".toList) ("cdvefuab".toList) = 1 / 4 := by
    unfold seqSimilarity
    rw [hm1, hlA, hlB]
    norm_num
  have hseq2 : seqSimilarity ("cdvefuab".toList) ("abzcdwef".toList) = 1 / 2 := by
    unfold seqSimilarity
    rw [hm2, hlA, hlB]
    norm_num
  have hcat1 : categorySim ("abzcdwef".toList) ("cdvefuab".toList) = 0 := by
    unfold categorySim
    rw [if_pos (Or.inl htA)]
  have hcat2 : categorySim ("cdvefuab".toList) ("abzcdwef".toList) = 0 := by
    unfold categorySim
    rw [if_pos (Or.inr htA)]
  have hpeq : exC3A.paragraf = exC3B.paragraf := rfl
  have h1 : similarityScore exC3A exC3B = 3 / 10 := by
    unfold similarityScore
    dsimp only
    rw [hnA, hnB, hseq1, hcat1, if_pos hpeq]
    norm_num
  have h2 : similarityScore exC3B exC3A = 2 / 5 := by
    unfold similarityScore
    dsimp only
    rw [hnA, hnB, hseq2, hcat2, if_pos hpeq.symm]
    norm_num
  refine ⟨h1, h2, ?_⟩
  rw [h1, h2]
  norm_num

lemma scanWith_dept (year : Nat) (a : BudgetEntry) :
    ∀ (l : List BudgetEntry) (pr : List (Nat × Nat)) (c : Conflict),
      c ∈ (scanWith year a l pr).1 → c.entry_a_department ≠ c.entry_b_department
  | [], pr, c => by simp [scanWith]
  | b :: rest, pr, c => by
    unfold scanWith
    by_cases hd : a.department_id = b.department_id
    · rw [if_pos hd]
      exact scanWith_dept year a rest pr c
    · rw [if_neg hd]
      by_cases hpk : pairKey a.id b.id ∈ pr
      · rw [if_pos hpk]
        exact scanWith_dept year a rest pr c
      · rw [if_neg hpk]
        dsimp only
        by_cases hsim : similarityScore a b ≥ 3 / 5
        · rw [if_pos hsim]
          intro hmem
          rcases List.mem_cons.mp hmem with h | h
          · subst h
            simpa [mkConflict] using hd
          · exact scanWith_dept year a rest _ c h
        · rw [if_neg hsim]
          exact scanWith_dept year a rest _ c

lemma conflictScan_dept (year : Nat) :
    ∀ (l : List BudgetEntry) (pr : List (Nat × Nat)) (c : Conflict),
      c ∈ conflictScan year l pr → c.entry_a_department ≠ c.entry_b_department
  | [], pr, c => by simp [conflictScan]
  | a :: rest, pr, c => by
    unfold conflictScan
    intro hmem
    rcases List.mem_append.mp hmem with h | h
    · exact scanWith_dept year a rest pr c h
    · exact conflictScan_dept year rest _ c h

/-- Claim C3 amended: detect_conflicts never reports a pair owned by the
same department (also never a pair with equal null department references),
and the category and paragraf components of the similarity are symmetric;
the SequenceMatcher text component, hence the full similarity, is not (see
the counterexample). -/
theorem detectConflicts_cross_department_and_component_symmetry :
    (∀ (entries : List BudgetEntry) (year : Nat),
       (detectConflicts entries year).filter
         (fun c => decide (c.entry_a_department = c.entry_b_department)) = []) ∧
    (∀ ca cb : List Char, categorySim ca cb = categorySim cb ca) ∧
    (∀ ea eb : BudgetEntry,
       (if ea.paragraf = eb.paragraf then (1 : ℚ) else 0) =
         (if eb.paragraf = ea.paragraf then (1 : ℚ) else 0)) := by
  refine ⟨?_, ?_, ?_⟩
  · intro entries year
    rw [List.filter_eq_nil_iff]
    intro c hc
    have hmem : c ∈ conflictScan year
        (entries.filter (fun e => decide (amountD e year > 0))) [] :=
      (List.perm_insertionSort _ _).mem_iff.mp hc
    have hne := conflictScan_dept year _ [] c hmem
    simpa using hne
  · intro ca cb
    unfold categorySim
    dsimp only
    by_cases h : categoryTags ca = ∅ ∨ categoryTags cb = ∅
    · rw [if_pos h, if_pos (Or.symm h)]
    · rw [if_neg h, if_neg (fun hh => h (Or.symm hh))]
      rw [Finset.inter_comm, Finset.union_comm]
  · intro ea eb
    by_cases hp : ea.paragraf = eb.paragraf
    · rw [if_pos hp, if_pos hp.symm]
    · rw [if_neg hp, if_neg (fun hh => hp hh.symm)]

/-! ### Claim C5 -/

lemma findEntry_some_id :
    ∀ (l : List BudgetEntry) (eid : Nat) (e : BudgetEntry),
      findEntry l eid = some e → e.id = eid
  | [], eid, e => by simp [findEntry]
  | e0 :: rest, eid, e => by
    unfold findEntry
    by_cases h0 : (e0.id == eid) = true
    · rw [if_pos h0]
      intro h
      cases h
      exact eq_of_beq h0
    · rw [if_neg h0]
      exact findEntry_some_id rest eid e

lemma findEntry_update_ne :
    ∀ (l : List BudgetEntry) (kid rid : Nat) (f : BudgetEntry → BudgetEntry),
      rid ≠ kid → (∀ x, x.id = kid → (f x).id = kid) →
      findEntry (updateEntryFirst l kid f) rid = findEntry l rid
  | [], _, _, _, _, _ => rfl
  | e0 :: rest, kid, rid, f, hne, hf => by
    unfold updateEntryFirst
    by_cases h0 : (e0.id == kid) = true
    · rw [if_pos h0]
      have h0id : e0.id = kid := eq_of_beq h0
      have hfid : (f e0).id = kid := hf e0 h0id
      unfold findEntry
      rw [if_neg (by simp [hfid]; exact Ne.symm hne),
          if_neg (by simp [h0id]; exact Ne.symm hne)]
    · rw [if_neg h0]
      unfold findEntry
      by_cases h1 : (e0.id == rid) = true
      · rw [if_pos h1, if_pos h1]
      · rw [if_neg h1, if_neg h1]
        exact findEntry_update_ne rest kid rid f hne hf

/-- Claim C5: resolving a conflict by consolidation writes
(kept + removed) x 0.85 onto all five years of the kept entry and zeroes only
the 2025, 2026 and 2027 amounts of the removed entry, leaving 2028 and 2029
unchanged. -/
theorem resolveConflict_consolidate (conflicts : List BudgetConflictRow)
    (entries : List BudgetEntry) (cid : Nat) (cf : BudgetConflictRow)
    (keepId removeId : Nat) (keepE removeE : BudgetEntry)
    (hc : findConflict conflicts cid = some cf)
    (hk0 : keepId ≠ 0)
    (hkeep : keepId = cf.entry_a_id ∨ keepId = cf.entry_b_id)
    (hab : cf.entry_a_id ≠ cf.entry_b_id)
    (hrid : removeId = if keepId = cf.entry_a_id then cf.entry_b_id else cf.entry_a_id)
    (hkE : findEntry entries keepId = some keepE)
    (hrE : findEntry entries removeId = some removeE) :
    (resolveConflict conflicts entries cid "consolidate" (some keepId)).2.2.success = true ∧
    findEntry (resolveConflict conflicts entries cid "consolidate" (some keepId)).2.1 keepId =
      some (consolidateKeep keepE removeE) ∧
    findEntry (resolveConflict conflicts entries cid "consolidate" (some keepId)).2.1 removeId =
      some (consolidateRemove removeE keepId) ∧
    (consolidateKeep keepE removeE).kwota_2025 =
      some ((keepE.kwota_2025.getD 0 + removeE.kwota_2025.getD 0) * (17 / 20)) ∧
    (consolidateKeep keepE removeE).kwota_2026 =
      some ((keepE.kwota_2026.getD 0 + removeE.kwota_2026.getD 0) * (17 / 20)) ∧
    (consolidateKeep keepE removeE).kwota_2027 =
      some ((keepE.kwota_2027.getD 0 + removeE.kwota_2027.getD 0) * (17 / 20)) ∧
    (consolidateKeep keepE removeE).kwota_2028 =
      some ((keepE.kwota_2028.getD 0 + removeE.kwota_2028.getD 0) * (17 / 20)) ∧
    (consolidateKeep keepE removeE).kwota_2029 =
      some ((keepE.kwota_2029.getD 0 + removeE.kwota_2029.getD 0) * (17 / 20)) ∧
    (consolidateRemove removeE keepId).kwota_2025 = some 0 ∧
    (consolidateRemove removeE keepId).kwota_2026 = some 0 ∧
    (consolidateRemove removeE keepId).kwota_2027 = some 0 ∧
    (consolidateRemove removeE keepId).kwota_2028 = removeE.kwota_2028 ∧
    (consolidateRemove removeE keepId).kwota_2029 = removeE.kwota_2029 := by
  have hne : removeId ≠ keepId := by
    by_cases ha : keepId = cf.entry_a_id
    · rw [hrid, if_pos ha, ha]
      exact Ne.symm hab
    · have hb : keepId = cf.entry_b_id := hkeep.resolve_left ha
      rw [hrid, if_neg ha, hb]
      exact hab
  have hkeepIdE : keepE.id = keepId := findEntry_some_id entries keepId keepE hkE
  have hremIdE : removeE.id = removeId := findEntry_some_id entries removeId removeE hrE
  have hguard : ¬("consolidate" = "consolidate" ∧ pyTruthyNat (some keepId) = false) := by
    intro h
    have h2 := h.2
    rw [pyTruthyNat_some hk0] at h2
    cases h2
  have hstep : resolveConflict conflicts entries cid "consolidate" (some keepId) =
      (updateConflictFirst conflicts cid (fun c => { c with resolution_status := "resolved" }),
       updateEntryFirst
         (updateEntryFirst entries keepId (fun _ => consolidateKeep keepE removeE))
         removeId (fun _ => consolidateRemove removeE keepId),
       { success := true, resolution := "consolidate" }) := by
    unfold resolveConflict
    rw [hc]
    dsimp only
    rw [if_neg hguard, if_pos rfl]
    simp only [Option.getD_some]
    rw [← hrid, hkE, hrE]
  rw [hstep]
  refine ⟨rfl, ?_, ?_, rfl, rfl, rfl, rfl, rfl, rfl, rfl, rfl, rfl, rfl⟩
  · rw [findEntry_update_ne _ removeId keepId _ (Ne.symm hne)
      (fun x _ => by simpa [consolidateRemove] using hremIdE)]
    exact findEntry_updateEntryFirst entries keepId _ keepE hkE (by simp [consolidateKeep])
  · rw [findEntry_updateEntryFirst _ removeId _ removeE ?hfind (by simp [consolidateRemove])]
    case hfind =>
      rw [findEntry_update_ne _ keepId removeId _ hne
        (fun x _ => by simpa [consolidateKeep] using hkeepIdE)]
      exact hrE

def exKeepC5 : BudgetEntry :=
  { id := 31, department_id := some 1, kwota_2025 := some 100, kwota_2026 := some 10,
    kwota_2028 := some 7 }

def exRemoveC5 : BudgetEntry :=
  { id := 32, department_id := some 2, kwota_2025 := some 50, kwota_2027 := some 5,
    kwota_2029 := some 9 }

def exConflictsC5 : List BudgetConflictRow :=
  [{ id := 1, entry_a_id := 31, entry_b_id := 32 }]

def exEntriesC5 : List BudgetEntry := [exKeepC5, exRemoveC5]

/-- Witness for C5: one stored conflict between entries 31 and 32, keeping
entry 31. -/
theorem resolveConflict_consolidate_witness :
    findConflict exConflictsC5 1 = some { id := 1, entry_a_id := 31, entry_b_id := 32 } ∧
    findEntry exEntriesC5 31 = some exKeepC5 ∧
    findEntry exEntriesC5 32 = some exRemoveC5 ∧
    ((resolveConflict exConflictsC5 exEntriesC5 1 "consolidate" (some 31)).2.2.success = true ∧
     findEntry (resolveConflict exConflictsC5 exEntriesC5 1 "consolidate" (some 31)).2.1 31 =
       some (consolidateKeep exKeepC5 exRemoveC5) ∧
     findEntry (resolveConflict exConflictsC5 exEntriesC5 1 "consolidate" (some 31)).2.1 32 =
       some (consolidateRemove exRemoveC5 31) ∧
     (consolidateKeep exKeepC5 exRemoveC5).kwota_2025 =
       some ((exKeepC5.kwota_2025.getD 0 + exRemoveC5.kwota_2025.getD 0) * (17 / 20)) ∧
     (consolidateKeep exKeepC5 exRemoveC5).kwota_2026 =
       some ((exKeepC5.kwota_2026.getD 0 + exRemoveC5.kwota_2026.getD 0) * (17 / 20)) ∧
     (consolidateKeep exKeepC5 exRemoveC5).kwota_2027 =
       some ((exKeepC5.kwota_2027.getD 0 + exRemoveC5.kwota_2027.getD 0) * (17 / 20)) ∧
     (consolidateKeep exKeepC5 exRemoveC5).kwota_2028 =
       some ((exKeepC5.kwota_2028.getD 0 + exRemoveC5.kwota_2028.getD 0) * (17 / 20)) ∧
     (consolidateKeep exKeepC5 exRemoveC5).kwota_2029 =
       some ((exKeepC5.kwota_2029.getD 0 + exRemoveC5.kwota_2029.getD 0) * (17 / 20)) ∧
     (consolidateRemove exRemoveC5 31).kwota_2025 = some 0 ∧
     (consolidateRemove exRemoveC5 31).kwota_2026 = some 0 ∧
     (consolidateRemove exRemoveC5 31).kwota_2027 = some 0 ∧
     (consolidateRemove exRemoveC5 31).kwota_2028 = exRemoveC5.kwota_2028 ∧
     (consolidateRemove exRemoveC5 31).kwota_2029 = exRemoveC5.kwota_2029) :=
  ⟨rfl, rfl, rfl,
   resolveConflict_consolidate exConflictsC5 exEntriesC5 1
     { id := 1, entry_a_id := 31, entry_b_id := 32 } 31 32 exKeepC5 exRemoveC5
     rfl (by decide) (Or.inl rfl) (by decide) (by decide) rfl rfl⟩

/-! ## Forecaster agent (forecaster_agent.py) -/

/-- growth_factors; 1.03 is the default for unlisted categories. -/
def growth_factors : List (String × ℚ) :=
  [("cybersecurity", 23 / 20), ("digital_transformation", 6 / 5), ("maintenance", 51 / 50),
   ("contracts", 1), ("staff", 103 / 100)]

/-- category_keywords, with the keyword strings exactly as they appear in the
source file (some carry mojibake, e.g. bezpieczestwo without its diacritic). -/
def category_keywords : List (String × List String) :=
  [("cybersecurity", ["cyber", "bezpieczestwo", "CSIRT", "security", "SOC"]),
   ("digital_transformation", ["transformacja", "cyfryzacja", "digitalizacja", "eIDAS"]),
   ("maintenance", ["utrzymanie", "maintenance", "bie偶ce", "eksploatacja"]),
   ("contracts", ["umowa", "contract", "COI", "realizacja"]),
   ("staff", ["wynagrodzenia", "personal", "kadry", "ZUS"])]

def forecastText (e : BudgetEntry) : String :=
  pyLower (orEmpty e.nazwa_zadania ++ " " ++ orEmpty e.opis_projektu ++ " " ++
           orEmpty e.szczegolowe_uzasadnienie)

/-- ForecasterAgent._categorize_entry: first matching category wins. -/
def categorizeEntry (e : BudgetEntry) : String :=
  match category_keywords.find?
      (fun ck => ck.2.any (fun kw => strContains (pyLower kw) (forecastText e))) with
  | some ck => ck.1
  | none => "other"

/-- Python dict accumulation d[k] = d.get(k, 0) + v: update in place, new
keys appended in first-seen order. -/
def assocAdd : List (String × ℚ) → String → ℚ → List (String × ℚ)
  | [], k, v => [(k, v)]
  | (k2, v2) :: rest, k, v =>
    if k2 = k then (k2, v2 + v) :: rest else (k2, v2) :: assocAdd rest k v

def initCategories : List (String × ℚ) :=
  [("cybersecurity", 0), ("digital_transformation", 0), ("maintenance", 0),
   ("contracts", 0), ("staff", 0), ("other", 0)]

structure YearData where
  year : Nat
  total : ℚ
  entries_count : Nat
  by_category : List (String × ℚ)
  by_department : List (String × ℚ)
  obligatory_total : ℚ

/-- ForecasterAgent._get_year_data (the raw entries field of the dictionary
is carried by the caller instead). -/
def getYearData (entries : List BudgetEntry) (year : Nat) : YearData :=
  let pos := entries.filter (fun e => decide (amountD e year > 0))
  { year := year
    total := (pos.map (fun e => amountD e year)).sum
    entries_count := pos.length
    by_category :=
      pos.foldl (fun acc e => assocAdd acc (categorizeEntry e) (amountD e year)) initCategories
    by_department :=
      pos.foldl (fun acc e => assocAdd acc (e.department_code.getD "UNKNOWN") (amountD e year)) []
    obligatory_total :=
      ((pos.filter (fun e => e.is_obligatory)).map (fun e => amountD e year)).sum }

def growthOf (cat : String) : ℚ :=
  ((growth_factors.find? (fun g => g.1 = cat)).map Prod.snd).getD (103 / 100)

/-- confidence = max(0.5, 1 - (offset * 0.15)). -/
def forecastConfidence (offset : Nat) : ℚ := max (1 / 2) (1 - (offset : ℚ) * (3 / 20))

structure ForecastResult where
  year : Nat
  predicted_total : ℚ
  confidence : ℚ
  breakdown : List (String × ℚ)
  trend : String
  risk_factors : List String

/-- ForecasterAgent._forecast_year (the risk-factor message is modelled
without its interpolated percentage). -/
def forecastYear (base : YearData) (year offset : Nat) : ForecastResult :=
  let predicted := base.by_category.map (fun cv => (cv.1, cv.2 * growthOf cv.1 ^ offset))
  let total := (predicted.map Prod.snd).sum
  { year := year
    predicted_total := total
    confidence := forecastConfidence offset
    breakdown := base.by_department.map
      (fun dv => (dv.1, if base.total > 0 then total * (dv.2 / base.total) else 0))
    trend :=
      if total > base.total * (11 / 10) then "increasing"
      else if total < base.total * (9 / 10) then "decreasing"
      else "stable"
    risk_factors :=
      if 2 ≤ offset ∧ base.by_category.any (fun cv => cv.1 = "cybersecurity") then
        ["cybersecurity fast growth"]
      else [] }

structure ForecastBudgetResult where
  base_year : Nat
  base_total : ℚ
  forecasts : List ForecastResult

/-- ForecasterAgent.forecast_budget (the trend_analysis and recommendation
payloads, display aggregations of the forecasts, are not modelled). -/
def forecastBudget (entries : List BudgetEntry) (base_year forecast_years : Nat) :
    ForecastBudgetResult :=
  let base := getYearData entries base_year
  { base_year := base_year
    base_total := base.total
    forecasts :=
      (List.range' 1 forecast_years).map (fun off => forecastYear base (base_year + off) off) }

/-! ### Claim C8 -/

lemma forecastBudget_length (entries : List BudgetEntry) (base_year n : Nat) :
    (forecastBudget entries base_year n).forecasts.length = n := by
  simp [forecastBudget]

lemma forecastBudget_get (entries : List BudgetEntry) (base_year n k : Nat)
    (hk : k < (forecastBudget entries base_year n).forecasts.length) :
    (forecastBudget entries base_year n).forecasts.get ⟨k, hk⟩ =
      forecastYear (getYearData entries base_year) (base_year + (1 + k)) (1 + k) := by
  simp [forecastBudget, List.getElem_map, List.getElem_range']

lemma forecastYear_confidence (base : YearData) (year offset : Nat) :
    (forecastYear base year offset).confidence = forecastConfidence offset := rfl

lemma forecastConfidence_ge_half (o : Nat) : 1 / 2 ≤ forecastConfidence o :=
  le_max_left _ _

lemma forecastConfidence_antitone (o1 o2 : Nat) (h : o1 ≤ o2) :
    forecastConfidence o2 ≤ forecastConfidence o1 := by
  unfold forecastConfidence
  apply max_le (le_max_left _ _)
  apply le_max_of_le_right
  have hc : (o1 : ℚ) ≤ (o2 : ℚ) := by exact_mod_cast h
  linarith

lemma forecastConfidence_strict (o1 o2 : Nat) (h12 : o1 < o2) (h4 : o2 ≤ 4) :
    forecastConfidence o2 < forecastConfidence o1 := by
  unfold forecastConfidence
  apply lt_of_lt_of_le _ (le_max_right _ _)
  apply max_lt
  · have ho1 : (o1 : ℚ) ≤ 3 := by exact_mod_cast (by omega : o1 ≤ 3)
    linarith
  · have hc : (o1 : ℚ) < (o2 : ℚ) := by exact_mod_cast h12
    linarith

/-- Claim C8 amended: every forecast confidence equals
max(0.5, 1 - 0.15 x offset) and is at least 0.5; along the forecast list the
confidence is non-increasing, and strictly decreasing only while the linear
term stays above the 0.5 floor (offsets up to 4); from offset 4 on it is
constant at 0.5, so it is NOT strictly decreasing in general. -/
theorem forecastBudget_confidence_formula (entries : List BudgetEntry)
    (base_year n i j : Nat) (hij : i < j) (hj : j < n) :
    ∃ (hin : i < (forecastBudget entries base_year n).forecasts.length)
      (hjn : j < (forecastBudget entries base_year n).forecasts.length),
      ((forecastBudget entries base_year n).forecasts.get ⟨i, hin⟩).confidence =
        max (1 / 2) (1 - ((i + 1 : Nat) : ℚ) * (3 / 20)) ∧
      ((forecastBudget entries base_year n).forecasts.get ⟨j, hjn⟩).confidence ≤
        ((forecastBudget entries base_year n).forecasts.get ⟨i, hin⟩).confidence ∧
      1 / 2 ≤ ((forecastBudget entries base_year n).forecasts.get ⟨j, hjn⟩).confidence ∧
      (j + 1 ≤ 4 →
        ((forecastBudget entries base_year n).forecasts.get ⟨j, hjn⟩).confidence <
          ((forecastBudget entries base_year n).forecasts.get ⟨i, hin⟩).confidence) := by
  have hin : i < (forecastBudget entries base_year n).forecasts.length := by
    rw [forecastBudget_length]; omega
  have hjn : j < (forecastBudget entries base_year n).forecasts.length := by
    rw [forecastBudget_length]; omega
  refine ⟨hin, hjn, ?_, ?_, ?_, ?_⟩
  · rw [forecastBudget_get, forecastYear_confidence]
    unfold forecastConfidence
    have : 1 + i = i + 1 := by omega
    rw [this]
  · rw [forecastBudget_get, forecastBudget_get, forecastYear_confidence,
      forecastYear_confidence]
    exact forecastConfidence_antitone (1 + i) (1 + j) (by omega)
  · rw [forecastBudget_get, forecastYear_confidence]
    exact forecastConfidence_ge_half _
  · intro h4
    rw [forecastBudget_get, forecastBudget_get, forecastYear_confidence,
      forecastYear_confidence]
    exact forecastConfidence_strict (1 + i) (1 + j) (by omega) (by omega)

def exEntriesC8 : List BudgetEntry :=
  [{ id := 81, kwota_2025 := some 100, nazwa_zadania := some "zadanie" }]

/-- Witness for the amended C8 at a two-year forecast over a one-entry
store. -/
theorem forecastBudget_confidence_formula_witness :
    (0 : Nat) < 1 ∧ (1 : Nat) < 2 ∧
    (∃ (hin : 0 < (forecastBudget exEntriesC8 2025 2).forecasts.length)
       (hjn : 1 < (forecastBudget exEntriesC8 2025 2).forecasts.length),
      ((forecastBudget exEntriesC8 2025 2).forecasts.get ⟨0, hin⟩).confidence =
        max (1 / 2) (1 - ((0 + 1 : Nat) : ℚ) * (3 / 20)) ∧
      ((forecastBudget exEntriesC8 2025 2).forecasts.get ⟨1, hjn⟩).confidence ≤
        ((forecastBudget exEntriesC8 2025 2).forecasts.get ⟨0, hin⟩).confidence ∧
      1 / 2 ≤ ((forecastBudget exEntriesC8 2025 2).forecasts.get ⟨1, hjn⟩).confidence ∧
      (1 + 1 ≤ 4 →
        ((forecastBudget exEntriesC8 2025 2).forecasts.get ⟨1, hjn⟩).confidence <
          ((forecastBudget exEntriesC8 2025 2).forecasts.get ⟨0, hin⟩).confidence)) :=
  ⟨by decide, by decide,
   forecastBudget_confidence_formula exEntriesC8 2025 2 0 1 (by decide) (by decide)⟩

lemma forecastConfidence_vals :
    forecastConfidence 1 = 17 / 20 ∧ forecastConfidence 2 = 7 / 10 ∧
    forecastConfidence 3 = 11 / 20 ∧ forecastConfidence 4 = 1 / 2 ∧
    forecastConfidence 5 = 1 / 2 := by
  refine ⟨?_, ?_, ?_, ?_, ?_⟩
  · unfold forecastConfidence
    push_cast
    rw [max_eq_right (by norm_num)]
    norm_num
  · unfold forecastConfidence
    push_cast
    rw [max_eq_right (by norm_num)]
    norm_num
  · unfold forecastConfidence
    push_cast
    rw [max_eq_right (by norm_num)]
    norm_num
  · unfold forecastConfidence
    push_cast
    rw [max_eq_left (by norm_num)]
  · unfold forecastConfidence
    push_cast
    rw [max_eq_left (by norm_num)]

/-- Counterexample to claim C8 as stated: over five forecast years the
confidences are 0.85, 0.7, 0.55, 0.5, 0.5 — the last two are equal, so the
sequence is not strictly decreasing in the year offset. -/
theorem forecast_confidence_not_strictly_decreasing_cex :
    (forecastBudget exEntriesC8 2025 5).forecasts.map (fun f => f.confidence) =
      [17 / 20, 7 / 10, 11 / 20, 1 / 2, 1 / 2] ∧
    ¬ List.Pairwise (fun x y : ℚ => x > y)
        ((forecastBudget exEntriesC8 2025 5).forecasts.map (fun f => f.confidence)) := by
  obtain ⟨h1, h2, h3, h4, h5⟩ := forecastConfidence_vals
  have hmap : (forecastBudget exEntriesC8 2025 5).forecasts.map (fun f => f.confidence) =
      [forecastConfidence 1, forecastConfidence 2, forecastConfidence 3,
       forecastConfidence 4, forecastConfidence 5] := by
    show (List.map _ (List.range' 1 5)).map _ = _
    rw [show List.range' 1 5 = [1, 2, 3, 4, 5] from rfl]
    simp only [List.map_cons, List.map_nil]
    rfl
  have hlist : (forecastBudget exEntriesC8 2025 5).forecasts.map (fun f => f.confidence) =
      [17 / 20, 7 / 10, 11 / 20, 1 / 2, 1 / 2] := by
    rw [hmap, h1, h2, h3, h4, h5]
  refine ⟨hlist, ?_⟩
  rw [hlist]
  intro hp
  have h45 : ((1 : ℚ) / 2) > 1 / 2 := by
    have := (List.pairwise_cons.mp
      (List.pairwise_cons.mp
        (List.pairwise_cons.mp
          (List.pairwise_cons.mp hp).2).2).2).1
    exact this (1 / 2) (List.mem_singleton.mpr rfl)
  exact absurd h45 (by norm_num)

/-! ### Claim C9 -/

structure Anomaly where
  atype : String
  severity : String
  entry_id : Nat

/-- The outlier branch of detect_anomalies.  The source computes
z = (x - mean)/sigma with sigma = sqrt(variance) when variance > 0 (else
sigma = 1) and tests abs z > 3; since sigma > 0 that is equivalent to the
square-free comparison used here. -/
def outlierCond (mean variance x : ℚ) : Bool :=
  if variance > 0 then decide ((x - mean) ^ 2 > 9 * variance) else decide (|x - mean| > 3)

/-- severity "high" iff z > 4 — the SIGNED z-score, as in the source. -/
def outlierHigh (mean variance x : ℚ) : Bool :=
  if variance > 0 then decide (mean < x ∧ (x - mean) ^ 2 > 16 * variance)
  else decide (x - mean > 4)

/-- text = (nazwa_zadania or opis_projektu or "").lower() in the
classification-mismatch branch. -/
def anomalyText (e : BudgetEntry) : String :=
  pyLower (if pyTruthyStr e.nazwa_zadania then orEmpty e.nazwa_zadania
           else if pyTruthyStr e.opis_projektu then orEmpty e.opis_projektu
           else "")

/-- The anomaly records appended for one entry of the loop of
detect_anomalies (descriptions, display strings, are not modelled; the
keyword sprzt is the string as it appears in the source). -/
def entryAnomalies (mean variance : ℚ) (year : Nat) (e : BudgetEntry) : List Anomaly :=
  (if outlierCond mean variance (amountD e year) then
     [{ atype := "outlier"
        severity := if outlierHigh mean variance (amountD e year) then "high" else "medium"
        entry_id := e.id }]
   else []) ++
  (if amountD e year > 10000 ∧ pyTruthyStr e.szczegolowe_uzasadnienie = false then
     [{ atype := "missing_justification", severity := "medium", entry_id := e.id }]
   else []) ++
  (if pyTruthyNat e.paragraf = true ∧
      (600 ≤ e.paragraf.getD 0 ∧ e.paragraf.getD 0 < 700) ∧
      ¬ (["zakup", "budowa", "inwestycja", "sprzt"].any
          (fun kw => strContains kw (anomalyText e))) = true then
     [{ atype := "classification_mismatch", severity := "low", entry_id := e.id }]
   else [])

/-- Population mean and variance of the positive amounts. -/
def anomalyStats (amounts : List ℚ) : ℚ × ℚ :=
  let mean := amounts.sum / amounts.length
  (mean, ((amounts.map (fun x => (x - mean) ^ 2)).sum) / amounts.length)

/-- ForecasterAgent.detect_anomalies. -/
def detectAnomalies (entries : List BudgetEntry) (year : Nat) : List Anomaly :=
  let pos := entries.filter (fun e => decide (amountD e year > 0))
  if pos.isEmpty then []
  else
    let stats := anomalyStats (pos.map (fun e => amountD e year))
    pos.flatMap (entryAnomalies stats.1 stats.2 year)

def exE9 (i : Nat) (amt : ℚ) : BudgetEntry :=
  { id := i, kwota_2025 := some amt, nazwa_zadania := some "zadanie" }

def exEntriesC9 : List BudgetEntry :=
  [exE9 1 10, exE9 2 10, exE9 3 10, exE9 4 10, exE9 5 1000]

/-- Claim C9 amended, general rule: detect_anomalies emits an outlier record
for an entry iff its squared deviation from the mean exceeds 9 x variance
(that is, abs z > 3), and that record carries severity high iff the SIGNED
z-score exceeds 4 (a negative outlier of any magnitude stays medium). -/
theorem detectAnomalies_outlier_rule :
    ∀ (mean variance : ℚ) (year : Nat) (e : BudgetEntry),
      (entryAnomalies mean variance year e).filter (fun r => r.atype == "outlier") =
        (if outlierCond mean variance (amountD e year) then
           [{ atype := "outlier"
              severity :=
                if outlierHigh mean variance (amountD e year) then "high" else "medium"
              entry_id := e.id }]
         else []) := by
  have hbm : (("missing_justification" : String) == "outlier") = false := by decide
  have hbc : (("classification_mismatch" : String) == "outlier") = false := by decide
  intro mean variance year e
  unfold entryAnomalies
  have hB : List.filter (fun r => r.atype == "outlier")
      (if amountD e year > 10000 ∧ pyTruthyStr e.szczegolowe_uzasadnienie = false then
         [{ atype := "missing_justification", severity := "medium", entry_id := e.id }]
       else ([] : List Anomaly)) = [] := by
    split
    · simp [List.filter, hbm]
    · rfl
  have hC : List.filter (fun r => r.atype == "outlier")
      (if pyTruthyNat e.paragraf = true ∧
          (600 ≤ e.paragraf.getD 0 ∧ e.paragraf.getD 0 < 700) ∧
          ¬ (["zakup", "budowa", "inwestycja", "sprzt"].any
              (fun kw => strContains kw (anomalyText e))) = true then
         [{ atype := "classification_mismatch", severity := "low", entry_id := e.id }]
       else ([] : List Anomaly)) = [] := by
    split
    · simp [List.filter, hbc]
    · rfl
  rw [List.filter_append, List.filter_append, hB, hC]
  rw [List.append_nil, List.append_nil]
  split
  · simp [List.filter]
  · rfl

/-- Counterexample to claim C9 as stated: on amounts [10, 10, 10, 10, 1000]
the mean is 208 and the population variance 156816, the squared deviation of
the 1000 entry is exactly 4 x variance (z = 2.0, not above 3), so
detect_anomalies reports NO anomaly at all — in particular the 1000 entry is
not flagged as an outlier. -/
theorem detectAnomalies_no_outlier_cex :
    anomalyStats [10, 10, 10, 10, 1000] = (208, 156816) ∧
    ((1000 - 208 : ℚ) ^ 2 = 4 * 156816) ∧
    outlierCond 208 156816 1000 = false ∧
    detectAnomalies exEntriesC9 2025 = [] := by
  have hvarpos : (156816 : ℚ) > 0 := by norm_num
  refine ⟨?_, by norm_num, ?_, ?_⟩
  · unfold anomalyStats
    simp only [List.sum_cons, List.sum_nil, List.map_cons, List.map_nil,
      List.length_cons, List.length_nil, Prod.mk.injEq]
    norm_num
  · unfold outlierCond
    rw [if_pos hvarpos]
    simp only [decide_eq_false_iff_not]
    norm_num
  · have hpos : exEntriesC9.filter (fun e => decide (amountD e 2025 > 0)) = exEntriesC9 := rfl
    have hamap : exEntriesC9.map (fun e => amountD e 2025) = [10, 10, 10, 10, 1000] := rfl
    have hstats : anomalyStats [10, 10, 10, 10, 1000] = (208, 156816) := by
      unfold anomalyStats
      simp only [List.sum_cons, List.sum_nil, List.map_cons, List.map_nil,
        List.length_cons, List.length_nil, Prod.mk.injEq]
      norm_num
    have hE10 : ∀ i : Nat, entryAnomalies 208 156816 2025 (exE9 i 10) = [] := by
      intro i
      unfold entryAnomalies
      have ham : amountD (exE9 i 10) 2025 = 10 := rfl
      rw [ham]
      rw [if_neg ?c1, if_neg ?c2, if_neg ?c3]
      · rfl
      case c1 =>
        unfold outlierCond
        rw [if_pos hvarpos]
        norm_num
      case c2 =>
        intro hcc
        have := hcc.1
        norm_num at this
      case c3 =>
        intro hcc
        have := hcc.1
        simp [exE9, pyTruthyNat] at this
    have hE1000 : entryAnomalies 208 156816 2025 (exE9 5 1000) = [] := by
      unfold entryAnomalies
      have ham : amountD (exE9 5 1000) 2025 = 1000 := rfl
      rw [ham]
      rw [if_neg ?d1, if_neg ?d2, if_neg ?d3]
      · rfl
      case d1 =>
        unfold outlierCond
        rw [if_pos hvarpos]
        norm_num
      case d2 =>
        intro hcc
        have := hcc.1
        norm_num at this
      case d3 =>
        intro hcc
        have := hcc.1
        simp [exE9, pyTruthyNat] at this
    unfold detectAnomalies
    rw [hpos]
    rw [if_neg (by decide : ¬ exEntriesC9.isEmpty = true)]
    rw [hamap, hstats]
    show exEntriesC9.flatMap (entryAnomalies 208 156816 2025) = []
    show (exE9 1 10 :: exE9 2 10 :: exE9 3 10 :: exE9 4 10 :: exE9 5 1000 :: []).flatMap
      (entryAnomalies 208 156816 2025) = []
    rw [List.flatMap_cons, List.flatMap_cons, List.flatMap_cons, List.flatMap_cons,
      List.flatMap_cons, List.flatMap_nil]
    rw [hE10 1, hE10 2, hE10 3, hE10 4, hE1000]
    rfl

end Budget
